import Mathlib

/-!
# LED strip layer compositing and flash scheduling

A shallow embedding of `src/main/io/ledstrip.c`: the LED table, the
orientation layer `applyLEDModeLayer`, and the per-tick update
`updateLedStrip` with its two flash channels.

Conventions of the embedding:

* machine integers are `Nat`/`Int`; every narrowing conversion the C code
  performs (`uint8_t`, `uint32_t`, `int32_t`) is written out with
  `toU8`, `toU32`, `toI32`;
* the process-wide variables of the C file (`ledGridHeight`, the two
  `next...FlashAt` timestamps, the function-static flash states and
  `flashColor`) and the driver's color buffer are fields of
  `LedStripState`; `updateLedStrip` maps a state and the values its
  external calls return during the tick to the next state;
* `min`, `max` (from `common/maths.h`) and `abs` are the usual minimum,
  maximum and absolute value on C `int`.
-/

namespace LedStrip

/-! ## Machine integer conversions -/

/-- Conversion of a C `int` to `uint8_t`. -/
def toU8 (x : Int) : Nat := (x % 256).toNat

/-- Conversion of an integer to `uint32_t`. -/
def toU32 (x : Int) : Nat := (x % 4294967296).toNat

/-- The cast `(int32_t)` of a `uint32_t` value (two's complement). -/
def toI32 (x : Nat) : Int :=
  if x % 4294967296 < 2147483648 then ((x % 4294967296 : Nat) : Int)
  else ((x % 4294967296 : Nat) : Int) - 4294967296

/-! ## Colors -/

/-- The driver's `rgbColor24bpp_t`: one byte for each of red, green, blue. -/
structure rgbColor24bpp_t where
  r : Nat
  g : Nat
  b : Nat
deriving DecidableEq, Repr

def LED_WHITE : rgbColor24bpp_t := ⟨255, 255, 255⟩
def LED_BLACK : rgbColor24bpp_t := ⟨0, 0, 0⟩
def LED_RED : rgbColor24bpp_t := ⟨255, 0, 0⟩
def LED_GREEN : rgbColor24bpp_t := ⟨0, 255, 0⟩
def LED_BLUE : rgbColor24bpp_t := ⟨0, 0, 255⟩
def LED_CYAN : rgbColor24bpp_t := ⟨0, 255, 255⟩
def LED_YELLOW : rgbColor24bpp_t := ⟨255, 255, 0⟩
def LED_ORANGE : rgbColor24bpp_t := ⟨255, 128, 0⟩
def LED_PINK : rgbColor24bpp_t := ⟨255, 0, 128⟩
def LED_PURPLE : rgbColor24bpp_t := ⟨192, 64, 255⟩

/-- Modelled from the spec: the driver constant `black` (declared in
`drivers/light_ws2811strip.h`, which is not part of the sources at hand),
the color the spec calls black. -/
def black : rgbColor24bpp_t := LED_BLACK

/-- Modelled from the spec: the driver constant `orange` (declared in
`drivers/light_ws2811strip.h`), the color the spec calls orange. -/
def orange : rgbColor24bpp_t := LED_ORANGE

/-! ## LED table -/

def LED_DISABLED : Nat := 0
def LED_DIRECTION_NORTH : Nat := 1 <<< 0
def LED_DIRECTION_EAST : Nat := 1 <<< 1
def LED_DIRECTION_SOUTH : Nat := 1 <<< 2
def LED_DIRECTION_WEST : Nat := 1 <<< 3
def LED_DIRECTION_UP : Nat := 1 <<< 4
def LED_DIRECTION_DOWN : Nat := 1 <<< 5
def LED_FUNCTION_INDICATOR : Nat := 1 <<< 6
def LED_FUNCTION_BATTERY : Nat := 1 <<< 7
def LED_FUNCTION_MODE : Nat := 1 <<< 8

def LED_X_BIT_OFFSET : Nat := 4
def LED_Y_BIT_OFFSET : Nat := 0

def LED_X_MASK : Nat := 0xF0
def LED_Y_MASK : Nat := 0x0F

/-- The record `ledConfig_t`: `xy` is a `uint8_t`, `flags` a `uint16_t`. -/
structure ledConfig_t where
  xy : Nat
  flags : Nat
deriving DecidableEq, Repr

/-- The macro `LED_X(ledConfig)`. -/
def LED_X (ledConfig : ledConfig_t) : Nat :=
  (ledConfig.xy &&& LED_X_MASK) >>> LED_X_BIT_OFFSET

/-- The macro `LED_Y(ledConfig)`. -/
def LED_Y (ledConfig : ledConfig_t) : Nat :=
  (ledConfig.xy &&& LED_Y_MASK) >>> LED_Y_BIT_OFFSET

/-- The macro `LED_XY(x,y)`, an `int` expression. -/
def LED_XY (x y : Nat) : Nat :=
  ((x &&& LED_X_MASK) <<< LED_X_BIT_OFFSET) ||| ((y &&& LED_Y_MASK) <<< LED_Y_BIT_OFFSET)

/-- One initializer `{ LED_XY(x, y), flags }` of the table: the `int` value
of `LED_XY` is stored in the `uint8_t` field `xy`. -/
def ledEntry (x y flags : Nat) : ledConfig_t :=
  { xy := toU8 (LED_XY x y), flags := flags }

/-- Modelled from the spec: the strip length `WS2811_LED_STRIP_LENGTH`
(a constant of `drivers/light_ws2811strip.h`), 28 for the target hardware;
it is the number of initializers of `ledConfigs`. -/
def WS2811_LED_STRIP_LENGTH : Nat := 28

/-- The table `ledConfigs`. -/
def ledConfigs : List ledConfig_t := [
  ledEntry 9 9 (LED_DIRECTION_SOUTH ||| LED_FUNCTION_MODE ||| LED_FUNCTION_BATTERY),
  ledEntry 10 10 (LED_DIRECTION_SOUTH ||| LED_FUNCTION_MODE ||| LED_FUNCTION_BATTERY),
  ledEntry 11 11 (LED_DIRECTION_SOUTH ||| LED_FUNCTION_INDICATOR),
  ledEntry 11 11 (LED_DIRECTION_EAST ||| LED_FUNCTION_INDICATOR),
  ledEntry 10 10 (LED_DIRECTION_EAST ||| LED_FUNCTION_MODE),
  ledEntry 9 9 (LED_DIRECTION_EAST ||| LED_FUNCTION_MODE),

  ledEntry 10 5 (LED_DIRECTION_SOUTH ||| LED_FUNCTION_MODE),
  ledEntry 11 4 (LED_DIRECTION_SOUTH ||| LED_FUNCTION_MODE),
  ledEntry 12 3 (LED_DIRECTION_SOUTH ||| LED_FUNCTION_INDICATOR),
  ledEntry 12 2 (LED_DIRECTION_NORTH ||| LED_FUNCTION_INDICATOR),
  ledEntry 11 1 (LED_DIRECTION_NORTH ||| LED_FUNCTION_MODE),
  ledEntry 10 0 (LED_DIRECTION_NORTH ||| LED_FUNCTION_MODE),

  ledEntry 7 0 (LED_DIRECTION_NORTH ||| LED_FUNCTION_MODE ||| LED_FUNCTION_BATTERY),
  ledEntry 6 0 (LED_DIRECTION_NORTH ||| LED_FUNCTION_MODE ||| LED_FUNCTION_BATTERY),
  ledEntry 5 0 (LED_DIRECTION_NORTH ||| LED_FUNCTION_MODE ||| LED_FUNCTION_BATTERY),
  ledEntry 4 0 (LED_DIRECTION_NORTH ||| LED_FUNCTION_MODE ||| LED_FUNCTION_BATTERY),

  ledEntry 2 0 (LED_DIRECTION_NORTH ||| LED_FUNCTION_MODE),
  ledEntry 1 1 (LED_DIRECTION_NORTH ||| LED_FUNCTION_MODE),
  ledEntry 0 2 (LED_DIRECTION_NORTH ||| LED_FUNCTION_INDICATOR),
  ledEntry 0 3 (LED_DIRECTION_WEST ||| LED_FUNCTION_INDICATOR),
  ledEntry 1 4 (LED_DIRECTION_WEST ||| LED_FUNCTION_MODE),
  ledEntry 2 5 (LED_DIRECTION_WEST ||| LED_FUNCTION_MODE),

  ledEntry 2 9 (LED_DIRECTION_WEST ||| LED_FUNCTION_MODE),
  ledEntry 1 10 (LED_DIRECTION_WEST ||| LED_FUNCTION_MODE),
  ledEntry 0 11 (LED_DIRECTION_WEST ||| LED_FUNCTION_INDICATOR),
  ledEntry 0 11 (LED_DIRECTION_SOUTH ||| LED_FUNCTION_INDICATOR),
  ledEntry 1 10 (LED_DIRECTION_SOUTH ||| LED_FUNCTION_MODE ||| LED_FUNCTION_BATTERY),
  ledEntry 2 9 (LED_DIRECTION_SOUTH ||| LED_FUNCTION_MODE ||| LED_FUNCTION_BATTERY)
]

def LED_STRIP_10HZ : Int := (1000 * 1000) / 10
def LED_STRIP_5HZ : Int := (1000 * 1000) / 5

def LED_DIRECTION_COUNT : Nat := 6

/-- The record `struct modeColors_s`. -/
structure modeColors_s where
  north : rgbColor24bpp_t
  east : rgbColor24bpp_t
  south : rgbColor24bpp_t
  west : rgbColor24bpp_t
  up : rgbColor24bpp_t
  down : rgbColor24bpp_t

/-- The table `orientationColors`, read through its `colors` view: the six
`raw` initializers in order. -/
def orientationColors : modeColors_s :=
  { north := LED_WHITE, east := LED_BLUE, south := LED_RED,
    west := LED_GREEN, up := LED_PURPLE, down := LED_CYAN }

/-! ## Frame driver -/

/-- Modelled from the spec: the driver call `setLedColor(index, color)`
(defined in `drivers/light_ws2811strip.c`), which writes one slot of the
render buffer. -/
def setLedColor (buf : List rgbColor24bpp_t) (index : Nat) (color : rgbColor24bpp_t) :
    List rgbColor24bpp_t :=
  buf.set index color

/-- Modelled from the spec: the driver call `setStripColor(color)`
(defined in `drivers/light_ws2811strip.c`), which overwrites every slot of
the render buffer with one color. -/
def setStripColor (buf : List rgbColor24bpp_t) (color : rgbColor24bpp_t) :
    List rgbColor24bpp_t :=
  buf.map (fun _ => color)

/-! ## Layer 1: orientation -/

/-- The local `highestYValueForNorth` of `applyLEDModeLayer`:
`(ledGridHeight / 2) - 1` stored in a `uint8_t`, then `&= ~(1 << 0)`
(on an 8-bit value, the mask keeps bits 7 to 1). -/
def highestYValueForNorth (ledGridHeight : Nat) : Nat :=
  toU8 (((ledGridHeight / 2 : Nat) : Int) - 1) &&& (255 ^^^ (1 <<< 0))

/-- The local `lowestYValueForSouth` of `applyLEDModeLayer`:
`(ledGridHeight / 2) - 1` stored in a `uint8_t`; if it is odd it becomes
`min(lowestYValueForSouth + 1, ledGridHeight - 1)`, computed on `int` and
stored back in the `uint8_t`. -/
def lowestYValueForSouth (ledGridHeight : Nat) : Nat :=
  let v := toU8 (((ledGridHeight / 2 : Nat) : Int) - 1)
  if v &&& 1 ≠ 0 then toU8 (min ((v : Int) + 1) ((ledGridHeight : Int) - 1)) else v

/-- The body of the loop of `applyLEDModeLayer` for one LED: the color
passed to `setLedColor` for it. -/
def ledModeColor (ledGridHeight : Nat) (ledConfig : ledConfig_t) : rgbColor24bpp_t :=
  if ledConfig.flags &&& LED_FUNCTION_MODE = 0 then black
  else if ledConfig.flags &&& LED_DIRECTION_NORTH ≠ 0
      ∧ LED_Y ledConfig < highestYValueForNorth ledGridHeight then orientationColors.north
  else if ledConfig.flags &&& LED_DIRECTION_SOUTH ≠ 0
      ∧ LED_Y ledConfig ≥ lowestYValueForSouth ledGridHeight then orientationColors.south
  else black

/-- The loop of `applyLEDModeLayer` over an LED table `configs`, for
`ledIndex` from 0 to `WS2811_LED_STRIP_LENGTH - 1`. -/
def applyLEDModeLayerOn (configs : List ledConfig_t) (ledGridHeight : Nat)
    (buf : List rgbColor24bpp_t) : List rgbColor24bpp_t :=
  (List.range WS2811_LED_STRIP_LENGTH).foldl
    (fun acc ledIndex =>
      setLedColor acc ledIndex (ledModeColor ledGridHeight (configs.getD ledIndex ⟨0, 0⟩)))
    buf

/-- The function `applyLEDModeLayer`, on the table `ledConfigs`. -/
def applyLEDModeLayer (ledGridHeight : Nat) (buf : List rgbColor24bpp_t) :
    List rgbColor24bpp_t :=
  applyLEDModeLayerOn ledConfigs ledGridHeight buf

/-! ## The per-tick update -/

/-- The variables that persist between ticks: the globals of the file, the
function-static variables of `updateLedStrip`, the driver's render buffer,
and the frames handed to the hardware so far (oldest first). -/
structure LedStripState where
  ledGridWidth : Nat
  ledGridHeight : Nat
  nextIndicatorFlashAt : Nat
  nextBatteryFlashAt : Nat
  indicatorFlashState : Nat
  batteryFlashState : Nat
  flashColor : Option rgbColor24bpp_t
  ledColorBuffer : List rgbColor24bpp_t
  transmitted : List (List rgbColor24bpp_t)
deriving DecidableEq, Repr

/-- What the external calls return during one tick:
`isWS2811LedStripReady()`, `micros()`, `feature(FEATURE_VBAT)`,
`shouldSoundBatteryAlarm()`, `rcCommand[ROLL]` and `rcCommand[PITCH]`. -/
structure TickInput where
  stripReady : Bool
  micros : Nat
  featureVbat : Bool
  batteryAlarm : Bool
  roll : Int
  pitch : Int
deriving DecidableEq, Repr

/-- Modelled from the spec: the driver call `ws2811UpdateStrip()`
(defined in `drivers/light_ws2811strip.c`), which pushes the full buffer
to the hardware. -/
def ws2811UpdateStrip (s : LedStripState) : LedStripState :=
  { s with transmitted := s.transmitted ++ [s.ledColorBuffer] }

/-- The due test `(int32_t)(now - nextFlashAt) >= 0L`. -/
def flashDue (now nextFlashAt : Nat) : Bool :=
  decide (0 ≤ toI32 (toU32 ((now : Int) - (nextFlashAt : Int))))

/-- The toggle `if (state == 0) state = 1; else state = 0;`. -/
def toggleFlashState (flashState : Nat) : Nat :=
  if flashState = 0 then 1 else 0

/-- The condition of the battery layer:
`batteryFlashState == 1 && feature(FEATURE_VBAT) && shouldSoundBatteryAlarm()`. -/
def batteryLayerActive (batteryFlashState : Nat) (featureVbat batteryAlarm : Bool) : Bool :=
  decide (batteryFlashState = 1) && featureVbat && batteryAlarm

/-- The battery pass on the buffer: `setStripColor(&black)` under the
condition of the layer. -/
def batteryLayer (batteryFlashState : Nat) (featureVbat batteryAlarm : Bool)
    (buf : List rgbColor24bpp_t) : List rgbColor24bpp_t :=
  if batteryLayerActive batteryFlashState featureVbat batteryAlarm then setStripColor buf black
  else buf

/-- The locals `rollScale`, `pitchScale` (each a `uint8_t`) and
`scale = max(rollScale, pitchScale)`. -/
def indicatorScale (roll pitch : Int) : Nat :=
  let rollScale := toU8 ((roll.natAbs : Int) / 50)
  let pitchScale := toU8 ((pitch.natAbs : Int) / 50)
  max rollScale pitchScale

/-- The period added to `now` when the indicator channel fires:
`LED_STRIP_5HZ / max(1, scale)`. -/
def indicatorPeriod (roll pitch : Int) : Int :=
  LED_STRIP_5HZ / max 1 (indicatorScale roll pitch : Int)

/-- The choice of `flashColor` from the indicator flash state. -/
def indicatorFlashColor (indicatorFlashState : Nat) : rgbColor24bpp_t :=
  if indicatorFlashState = 0 then orange else black

/-- The four conditional writes of the indicator pass, in source order. -/
def indicatorLayer (flashColor : rgbColor24bpp_t) (roll pitch : Int)
    (buf : List rgbColor24bpp_t) : List rgbColor24bpp_t :=
  let b1 := if roll < -50 then setLedColor (setLedColor buf 0 flashColor) 9 flashColor else buf
  let b2 := if roll > 50 then setLedColor (setLedColor b1 4 flashColor) 5 flashColor else b1
  let b3 := if pitch > 50 then setLedColor (setLedColor b2 0 flashColor) 4 flashColor else b2
  if pitch < -50 then setLedColor (setLedColor b3 5 flashColor) 9 flashColor else b3

/-- The function `updateLedStrip`. -/
def updateLedStrip (s : LedStripState) (inp : TickInput) : LedStripState :=
  if !inp.stripReady then s
  else
    let now := toU32 inp.micros
    let indicatorFlashNow := flashDue now s.nextIndicatorFlashAt
    let batteryFlashNow := flashDue now s.nextBatteryFlashAt
    if !(batteryFlashNow || indicatorFlashNow) then s
    else
      -- LAYER 1
      let buf1 := applyLEDModeLayer s.ledGridHeight s.ledColorBuffer
      -- LAYER 2
      let nextBatteryFlashAt :=
        if batteryFlashNow then toU32 ((now : Int) + LED_STRIP_10HZ) else s.nextBatteryFlashAt
      let batteryFlashState :=
        if batteryFlashNow then toggleFlashState s.batteryFlashState else s.batteryFlashState
      let buf2 := batteryLayer batteryFlashState inp.featureVbat inp.batteryAlarm buf1
      -- LAYER 3
      let nextIndicatorFlashAt :=
        if indicatorFlashNow then toU32 ((now : Int) + indicatorPeriod inp.roll inp.pitch)
        else s.nextIndicatorFlashAt
      let indicatorFlashState :=
        if indicatorFlashNow then toggleFlashState s.indicatorFlashState
        else s.indicatorFlashState
      let flashColor := indicatorFlashColor indicatorFlashState
      let buf3 := indicatorLayer flashColor inp.roll inp.pitch buf2
      ws2811UpdateStrip
        { s with
          nextIndicatorFlashAt := nextIndicatorFlashAt
          nextBatteryFlashAt := nextBatteryFlashAt
          indicatorFlashState := indicatorFlashState
          batteryFlashState := batteryFlashState
          flashColor := some flashColor
          ledColorBuffer := buf3 }

/-- The function `determineLedStripDimensions`. -/
def determineLedStripDimensions (s : LedStripState) : LedStripState :=
  { s with ledGridWidth := 12, ledGridHeight := 12 }

/-- The function `ledStripInit`. -/
def ledStripInit (s : LedStripState) : LedStripState :=
  determineLedStripDimensions s

/-- The state at program start: zero-initialised variables and a render
buffer of `WS2811_LED_STRIP_LENGTH` slots holding `fill`. -/
def initialState (fill : rgbColor24bpp_t) : LedStripState :=
  { ledGridWidth := 0, ledGridHeight := 0,
    nextIndicatorFlashAt := 0, nextBatteryFlashAt := 0,
    indicatorFlashState := 0, batteryFlashState := 0,
    flashColor := none,
    ledColorBuffer := List.replicate WS2811_LED_STRIP_LENGTH fill,
    transmitted := [] }

/-! ## Definitions that follow the specification's words

These are compared with the definitions above, which follow the code. -/

/-- Specification, pass 1: `northBoundary = floor(height/2) - 1`, rounded
down to even. -/
def spec_northBoundary (height : Nat) : Nat :=
  (height / 2 - 1) - (height / 2 - 1) % 2

/-- Specification, pass 1: `southBoundary = floor(height/2) - 1`, rounded up
to the nearest value at most `height - 1` if it was odd. -/
def spec_southBoundary (height : Nat) : Nat :=
  if (height / 2 - 1) % 2 = 1 then min (height / 2 - 1 + 1) (height - 1) else height / 2 - 1

/-- Specification, pass 1, for an LED with flag set `flags` at
y-coordinate `y`: black without FUNCTION_MODE; else the north color of the
table (white) with DIRECTION_NORTH and `y < northBoundary`; else the south
color (red) with DIRECTION_SOUTH and `y ≥ southBoundary`; else black. -/
def spec_modeColor (height flags y : Nat) : rgbColor24bpp_t :=
  if flags &&& LED_FUNCTION_MODE = 0 then ⟨0, 0, 0⟩
  else if flags &&& LED_DIRECTION_NORTH ≠ 0 ∧ y < spec_northBoundary height then ⟨255, 255, 255⟩
  else if flags &&& LED_DIRECTION_SOUTH ≠ 0 ∧ spec_southBoundary height ≤ y then ⟨255, 0, 0⟩
  else ⟨0, 0, 0⟩

/-- Specification, pass 3: slot `i` is targeted by an indicator condition
that holds: roll < -50 targets 0 and 9, roll > 50 targets 4 and 5,
pitch > 50 targets 0 and 4, pitch < -50 targets 5 and 9. -/
def spec_indicatorTargets (roll pitch : Int) (i : Nat) : Bool :=
  decide ((roll < -50 ∧ (i = 0 ∨ i = 9)) ∨ (roll > 50 ∧ (i = 4 ∨ i = 5))
    ∨ (pitch > 50 ∧ (i = 0 ∨ i = 4)) ∨ (pitch < -50 ∧ (i = 5 ∨ i = 9)))

/-! ## Runs of ticks

Observers used to state properties of sequences of ticks. -/

/-- A run: `updateLedStrip` called once for each tick of a list, in order.
The `micros` field of a tick is read as the true time of the tick, of which
the code sees the low 32 bits. -/
def runTicks (s : LedStripState) (ticks : List TickInput) : LedStripState :=
  ticks.foldl updateLedStrip s

/-- Whether the flash channel with timestamp variable `next` fires in a
tick: the strip is ready and the due test of the channel holds. -/
def channelFires (next : LedStripState → Nat) (s : LedStripState) (inp : TickInput) : Bool :=
  inp.stripReady && flashDue (toU32 inp.micros) (next s)

/-- The fires of a channel during a run, oldest first: for each tick in
which the channel fires, the true time of the tick and the period `period`
gives for it. -/
def fireLog (next : LedStripState → Nat) (period : TickInput → Nat) :
    LedStripState → List TickInput → List (Nat × Nat)
  | _, [] => []
  | s, inp :: rest =>
    if channelFires next s inp = true
    then (inp.micros, period inp) :: fireLog next period (updateLedStrip s inp) rest
    else fireLog next period (updateLedStrip s inp) rest

/-- The period of the battery channel in microseconds, as a natural
number. -/
def batteryPeriodOf (_inp : TickInput) : Nat := LED_STRIP_10HZ.toNat

/-- The period of the indicator channel for the roll and pitch of a tick,
as a natural number. -/
def indicatorPeriodOf (inp : TickInput) : Nat := (indicatorPeriod inp.roll inp.pitch).toNat

/-! ## Example states and inputs -/

/-- A state after `ledStripInit` whose render buffer holds pink in every
slot. -/
def exampleState : LedStripState := ledStripInit (initialState LED_PINK)

/-- A tick at 1000 microseconds with the strip ready, the battery alarm
sounding, roll at -60 and pitch at 60. -/
def exampleInput : TickInput :=
  { stripReady := true, micros := 1000, featureVbat := true, batteryAlarm := true,
    roll := -60, pitch := 60 }

/-! ## Auxiliary lemmas -/

theorem toU8_lt (x : Int) : toU8 x < 256 := by
  unfold toU8; omega

theorem toU32_lt (x : Int) : toU32 x < 4294967296 := by
  unfold toU32; omega

set_option maxRecDepth 100000 in
theorem land_clear_bit0 : ∀ n, n < 256 → n &&& (255 ^^^ (1 <<< 0)) = n - n % 2 := by
  decide

theorem highestYValueForNorth_eq (h : Nat) :
    highestYValueForNorth h
      = toU8 (((h / 2 : Nat) : Int) - 1) - toU8 (((h / 2 : Nat) : Int) - 1) % 2 := by
  unfold highestYValueForNorth
  exact land_clear_bit0 _ (toU8_lt _)

theorem lowestYValueForSouth_eq (h : Nat) :
    lowestYValueForSouth h
      = if toU8 (((h / 2 : Nat) : Int) - 1) % 2 = 1
        then toU8 (min ((toU8 (((h / 2 : Nat) : Int) - 1) : Int) + 1) ((h : Int) - 1))
        else toU8 (((h / 2 : Nat) : Int) - 1) := by
  unfold lowestYValueForSouth
  simp only [Nat.and_one_is_mod]
  split_ifs <;> first | rfl | omega

theorem highestYValueForNorth_spec (h : Nat) (h2 : 2 ≤ h) (h256 : h < 256) :
    highestYValueForNorth h = spec_northBoundary h := by
  rw [highestYValueForNorth_eq]
  unfold toU8 spec_northBoundary; omega

theorem lowestYValueForSouth_spec (h : Nat) (h2 : 2 ≤ h) (h256 : h < 256) :
    lowestYValueForSouth h = spec_southBoundary h := by
  rw [lowestYValueForSouth_eq]
  unfold toU8 spec_southBoundary
  split_ifs <;> omega

theorem LED_Y_lt (c : ledConfig_t) : LED_Y c < 16 := by
  unfold LED_Y LED_Y_MASK LED_Y_BIT_OFFSET
  have h : c.xy &&& 15 ≤ 15 := Nat.and_le_right
  simp only [Nat.shiftRight_zero]
  omega

theorem ledModeColor_spec (h : Nat) (c : ledConfig_t) (h2 : 2 ≤ h) (h256 : h < 256) :
    ledModeColor h c = spec_modeColor h c.flags (LED_Y c) := by
  unfold ledModeColor spec_modeColor
  rw [highestYValueForNorth_spec h h2 h256, lowestYValueForSouth_spec h h2 h256]
  rfl

theorem length_setLedColor (buf : List rgbColor24bpp_t) (k : Nat) (c : rgbColor24bpp_t) :
    (setLedColor buf k c).length = buf.length := by
  simp [setLedColor]

theorem getElem?_setLedColor (buf : List rgbColor24bpp_t) (k : Nat) (c : rgbColor24bpp_t)
    (i : Nat) :
    (setLedColor buf k c)[i]? = if i = k ∧ k < buf.length then some c else buf[i]? := by
  unfold setLedColor
  rw [List.getElem?_set]
  by_cases hk : k = i
  · subst hk
    by_cases hl : k < buf.length
    · simp [hl]
    · simp [hl, List.getElem?_eq_none (Nat.le_of_not_lt hl)]
  · have hk2 : ¬ i = k := fun e => hk e.symm
    simp [hk, hk2]

theorem length_foldl_setLedColor (f : Nat → rgbColor24bpp_t) (ks : List Nat)
    (buf : List rgbColor24bpp_t) :
    (ks.foldl (fun acc k => setLedColor acc k (f k)) buf).length = buf.length := by
  induction ks generalizing buf with
  | nil => rfl
  | cons k ks ih => simp only [List.foldl_cons]; rw [ih, length_setLedColor]

theorem getElem?_foldl_range (f : Nat → rgbColor24bpp_t) (n : Nat)
    (buf : List rgbColor24bpp_t) (i : Nat) :
    ((List.range n).foldl (fun acc k => setLedColor acc k (f k)) buf)[i]?
      = if i < n ∧ i < buf.length then some (f i) else buf[i]? := by
  induction n with
  | zero => simp
  | succ n ih =>
    rw [List.range_succ, List.foldl_append, List.foldl_cons, List.foldl_nil,
      getElem?_setLedColor, ih, length_foldl_setLedColor]
    by_cases hni : i = n
    · subst hni
      by_cases hl : i < buf.length
      · simp [hl]
      · simp [hl]
    · have hlt : (i < n + 1) = (i < n) := by
        apply propext; omega
      simp only [hni, false_and, if_false, hlt]

theorem length_applyLEDModeLayerOn (configs : List ledConfig_t) (h : Nat)
    (buf : List rgbColor24bpp_t) :
    (applyLEDModeLayerOn configs h buf).length = buf.length := by
  unfold applyLEDModeLayerOn
  exact length_foldl_setLedColor
    (fun k => ledModeColor h (configs.getD k ⟨0, 0⟩)) _ buf

theorem getElem?_applyLEDModeLayerOn (configs : List ledConfig_t) (h : Nat)
    (buf : List rgbColor24bpp_t) (i : Nat) :
    (applyLEDModeLayerOn configs h buf)[i]?
      = if i < WS2811_LED_STRIP_LENGTH ∧ i < buf.length
        then some (ledModeColor h (configs.getD i ⟨0, 0⟩)) else buf[i]? := by
  unfold applyLEDModeLayerOn
  exact getElem?_foldl_range
    (fun k => ledModeColor h (configs.getD k ⟨0, 0⟩)) _ buf i

theorem length_setStripColor (buf : List rgbColor24bpp_t) (c : rgbColor24bpp_t) :
    (setStripColor buf c).length = buf.length := by
  simp [setStripColor]

theorem getElem?_setStripColor (buf : List rgbColor24bpp_t) (c : rgbColor24bpp_t) (i : Nat) :
    (setStripColor buf c)[i]? = if i < buf.length then some c else none := by
  unfold setStripColor
  by_cases hl : i < buf.length
  · simp [hl, List.getElem?_eq_getElem hl]
  · simp only [hl, if_false]
    apply List.getElem?_eq_none
    simp only [List.length_map]
    omega

theorem length_batteryLayer (st : Nat) (vbat alarm : Bool) (buf : List rgbColor24bpp_t) :
    (batteryLayer st vbat alarm buf).length = buf.length := by
  unfold batteryLayer
  split_ifs
  · exact length_setStripColor buf black
  · rfl

theorem getElem?_batteryLayer (st : Nat) (vbat alarm : Bool) (buf : List rgbColor24bpp_t)
    (i : Nat) (hi : i < buf.length) :
    (batteryLayer st vbat alarm buf)[i]?
      = if batteryLayerActive st vbat alarm = true then some black else buf[i]? := by
  unfold batteryLayer
  split_ifs
  · rw [getElem?_setStripColor, if_pos hi]
  · rfl

theorem length_indicatorLayer (fc : rgbColor24bpp_t) (roll pitch : Int)
    (buf : List rgbColor24bpp_t) :
    (indicatorLayer fc roll pitch buf).length = buf.length := by
  unfold indicatorLayer
  simp only []
  split_ifs <;> simp only [length_setLedColor]

theorem getElem?_indicatorLayer (fc : rgbColor24bpp_t) (roll pitch : Int)
    (buf : List rgbColor24bpp_t) (hlen : 10 ≤ buf.length) (i : Nat) :
    (indicatorLayer fc roll pitch buf)[i]?
      = if spec_indicatorTargets roll pitch i = true then some fc else buf[i]? := by
  have h0 : 0 < buf.length := by omega
  have h4 : 4 < buf.length := by omega
  have h5 : 5 < buf.length := by omega
  have h9 : 9 < buf.length := by omega
  unfold indicatorLayer spec_indicatorTargets
  simp only [decide_eq_true_eq]
  by_cases i0 : i = 0 <;> by_cases i4 : i = 4 <;> by_cases i5 : i = 5
    <;> by_cases i9 : i = 9
    <;> first
      | omega
      | (by_cases c1 : roll < -50 <;> by_cases c2 : roll > 50 <;> by_cases c3 : pitch > 50
          <;> by_cases c4 : pitch < -50
          <;> first
            | omega
            | (simp only [c1, c2, c3, c4, if_true, if_false, getElem?_setLedColor,
                length_setLedColor]
               simp [c1, c2, c3, c4, i0, i4, i5, i9, h0, h4, h5, h9]))

/-- An unskipped tick, written out: the strip is ready and a channel is
due. -/
theorem updateLedStrip_of_due (s : LedStripState) (inp : TickInput)
    (hready : inp.stripReady = true)
    (hdue : flashDue (toU32 inp.micros) s.nextBatteryFlashAt = true
      ∨ flashDue (toU32 inp.micros) s.nextIndicatorFlashAt = true) :
    updateLedStrip s inp =
      ws2811UpdateStrip
        { s with
          nextIndicatorFlashAt :=
            if flashDue (toU32 inp.micros) s.nextIndicatorFlashAt = true
            then toU32 ((toU32 inp.micros : Int) + indicatorPeriod inp.roll inp.pitch)
            else s.nextIndicatorFlashAt
          nextBatteryFlashAt :=
            if flashDue (toU32 inp.micros) s.nextBatteryFlashAt = true
            then toU32 ((toU32 inp.micros : Int) + LED_STRIP_10HZ)
            else s.nextBatteryFlashAt
          indicatorFlashState :=
            if flashDue (toU32 inp.micros) s.nextIndicatorFlashAt = true
            then toggleFlashState s.indicatorFlashState else s.indicatorFlashState
          batteryFlashState :=
            if flashDue (toU32 inp.micros) s.nextBatteryFlashAt = true
            then toggleFlashState s.batteryFlashState else s.batteryFlashState
          flashColor := some (indicatorFlashColor
            (if flashDue (toU32 inp.micros) s.nextIndicatorFlashAt = true
             then toggleFlashState s.indicatorFlashState else s.indicatorFlashState))
          ledColorBuffer :=
            indicatorLayer
              (indicatorFlashColor
                (if flashDue (toU32 inp.micros) s.nextIndicatorFlashAt = true
                 then toggleFlashState s.indicatorFlashState else s.indicatorFlashState))
              inp.roll inp.pitch
              (batteryLayer
                (if flashDue (toU32 inp.micros) s.nextBatteryFlashAt = true
                 then toggleFlashState s.batteryFlashState else s.batteryFlashState)
                inp.featureVbat inp.batteryAlarm
                (applyLEDModeLayer s.ledGridHeight s.ledColorBuffer)) } := by
  have hor : (flashDue (toU32 inp.micros) s.nextBatteryFlashAt
      || flashDue (toU32 inp.micros) s.nextIndicatorFlashAt) = true := by
    rcases hdue with h | h <;> simp [h]
  unfold updateLedStrip
  simp only [hready, hor, Bool.not_true, Bool.false_eq_true, if_false]

/-- A skipped tick, written out. -/
theorem updateLedStrip_of_skip (s : LedStripState) (inp : TickInput)
    (hskip : inp.stripReady = false
      ∨ (flashDue (toU32 inp.micros) s.nextBatteryFlashAt = false
        ∧ flashDue (toU32 inp.micros) s.nextIndicatorFlashAt = false)) :
    updateLedStrip s inp = s := by
  unfold updateLedStrip
  rcases hskip with h | ⟨hb, hi⟩
  · simp [h]
  · simp [hb, hi]

theorem batteryLayerActive_iff (st : Nat) (vbat alarm : Bool) :
    batteryLayerActive st vbat alarm = true ↔ (st = 1 ∧ vbat = true ∧ alarm = true) := by
  unfold batteryLayerActive
  simp [and_assoc]

/-! ## The claims -/

/-- C1: in every tick that is not skipped (strip ready, a channel due), the
frame handed to the driver is the render buffer, and the color of each slot
`i` follows the precedence indicator > battery > orientation: it is
`flashColor` (orange or black by the indicator flash state after this tick's
toggle) if an indicator condition targeting `i` holds; otherwise black if the
battery flash state after this tick's toggle is 1, VBAT is enabled and the
battery alarm sounds; otherwise the color `applyLEDModeLayer` gives slot
`i`, which is the loop body's color for entry `i` of `ledConfigs`. -/
theorem updateLedStrip_layer_precedence (s : LedStripState) (inp : TickInput) (i : Nat)
    (hready : inp.stripReady = true)
    (hdue : flashDue (toU32 inp.micros) s.nextBatteryFlashAt = true
      ∨ flashDue (toU32 inp.micros) s.nextIndicatorFlashAt = true)
    (hlen : s.ledColorBuffer.length = WS2811_LED_STRIP_LENGTH)
    (hi : i < WS2811_LED_STRIP_LENGTH) :
    (updateLedStrip s inp).transmitted
        = s.transmitted ++ [(updateLedStrip s inp).ledColorBuffer]
    ∧ (updateLedStrip s inp).flashColor
        = some (if (updateLedStrip s inp).indicatorFlashState = 0 then orange else black)
    ∧ (updateLedStrip s inp).ledColorBuffer[i]?
        = (if spec_indicatorTargets inp.roll inp.pitch i = true
            then (updateLedStrip s inp).flashColor
          else if (updateLedStrip s inp).batteryFlashState = 1
              ∧ inp.featureVbat = true ∧ inp.batteryAlarm = true
            then some black
          else (applyLEDModeLayer s.ledGridHeight s.ledColorBuffer)[i]?)
    ∧ (applyLEDModeLayer s.ledGridHeight s.ledColorBuffer)[i]?
        = some (ledModeColor s.ledGridHeight (ledConfigs.getD i ⟨0, 0⟩)) := by
  have hl1 : (applyLEDModeLayer s.ledGridHeight s.ledColorBuffer).length
      = WS2811_LED_STRIP_LENGTH := by
    unfold applyLEDModeLayer
    rw [length_applyLEDModeLayerOn, hlen]
  have h28 : WS2811_LED_STRIP_LENGTH = 28 := rfl
  rw [updateLedStrip_of_due s inp hready hdue]
  refine ⟨rfl, rfl, ?_, ?_⟩
  · simp only [ws2811UpdateStrip]
    rw [getElem?_indicatorLayer _ _ _ _
        (by rw [length_batteryLayer, hl1, h28]; omega),
      getElem?_batteryLayer _ _ _ _ _ (by rw [hl1]; exact hi)]
    simp only [batteryLayerActive_iff]
  · unfold applyLEDModeLayer
    rw [getElem?_applyLEDModeLayerOn, if_pos ⟨hi, by rw [hlen]; exact hi⟩]

theorem updateLedStrip_layer_precedence_witness :
    exampleInput.stripReady = true
    ∧ (flashDue (toU32 exampleInput.micros) exampleState.nextBatteryFlashAt = true
      ∨ flashDue (toU32 exampleInput.micros) exampleState.nextIndicatorFlashAt = true)
    ∧ exampleState.ledColorBuffer.length = WS2811_LED_STRIP_LENGTH
    ∧ 9 < WS2811_LED_STRIP_LENGTH
    ∧ ((updateLedStrip exampleState exampleInput).transmitted
        = exampleState.transmitted ++ [(updateLedStrip exampleState exampleInput).ledColorBuffer]
    ∧ (updateLedStrip exampleState exampleInput).flashColor
        = some (if (updateLedStrip exampleState exampleInput).indicatorFlashState = 0
            then orange else black)
    ∧ (updateLedStrip exampleState exampleInput).ledColorBuffer[9]?
        = (if spec_indicatorTargets exampleInput.roll exampleInput.pitch 9 = true
            then (updateLedStrip exampleState exampleInput).flashColor
          else if (updateLedStrip exampleState exampleInput).batteryFlashState = 1
              ∧ exampleInput.featureVbat = true ∧ exampleInput.batteryAlarm = true
            then some black
          else (applyLEDModeLayer exampleState.ledGridHeight exampleState.ledColorBuffer)[9]?)
    ∧ (applyLEDModeLayer exampleState.ledGridHeight exampleState.ledColorBuffer)[9]?
        = some (ledModeColor exampleState.ledGridHeight (ledConfigs.getD 9 ⟨0, 0⟩))) :=
  ⟨by decide, by decide, by decide, by decide,
    updateLedStrip_layer_precedence exampleState exampleInput 9
      (by decide) (by decide) (by decide) (by decide)⟩

theorem LED_Y_pack (x y flags : Nat) (hy : y < 16) :
    LED_Y ⟨16 * x + y, flags⟩ = y := by
  unfold LED_Y LED_Y_MASK LED_Y_BIT_OFFSET
  simp only [Nat.shiftRight_zero]
  have h := Nat.and_pow_two_sub_one_eq_mod (16 * x + y) 4
  norm_num at h
  rw [h]
  omega

/-- C2: for every grid height `h` with `2 ≤ h` (an 8-bit value), every LED
table, every buffer and every slot `i` of the strip, `applyLEDModeLayer`
leaves in slot `i` the color the specification gives for the flags and
y-coordinate of LED `i`, with the specification's boundaries, which the
code's boundaries equal: black without FUNCTION_MODE (for every height and
position); else white (255,255,255) with DIRECTION_NORTH and
`y < northBoundary`; else red (255,0,0) with DIRECTION_SOUTH and
`y ≥ southBoundary`; else black. The y-coordinate of an LED is in 0..15 and
every pair of a flag set and a y in 0..15 occurs. With `h = 12` the
boundaries are 4 and 6, a NORTH+MODE LED at y = 2 is white and a SOUTH+MODE
LED at y = 9 is red. -/
theorem applyLEDModeLayer_spec (h : Nat) (configs : List ledConfig_t)
    (buf : List rgbColor24bpp_t) (i : Nat)
    (h2 : 2 ≤ h) (h256 : h < 256)
    (hi : i < WS2811_LED_STRIP_LENGTH) (hlen : i < buf.length) :
    (highestYValueForNorth h = spec_northBoundary h
      ∧ lowestYValueForSouth h = spec_southBoundary h)
    ∧ (applyLEDModeLayerOn configs h buf)[i]?
        = some (spec_modeColor h (configs.getD i ⟨0, 0⟩).flags (LED_Y (configs.getD i ⟨0, 0⟩)))
    ∧ (applyLEDModeLayer h buf)[i]?
        = some (spec_modeColor h (ledConfigs.getD i ⟨0, 0⟩).flags
            (LED_Y (ledConfigs.getD i ⟨0, 0⟩)))
    ∧ (∀ c : ledConfig_t, LED_Y c < 16 ∧ ledModeColor h c = spec_modeColor h c.flags (LED_Y c))
    ∧ (∀ flags x y : Nat, y < 16 →
        ledModeColor h ⟨16 * x + y, flags⟩ = spec_modeColor h flags y)
    ∧ (∀ (height : Nat) (c : ledConfig_t), c.flags &&& LED_FUNCTION_MODE = 0 →
        ledModeColor height c = ⟨0, 0, 0⟩)
    ∧ (highestYValueForNorth 12 = 4 ∧ lowestYValueForSouth 12 = 6)
    ∧ (∀ c : ledConfig_t, c.flags &&& LED_FUNCTION_MODE ≠ 0 →
        c.flags &&& LED_DIRECTION_NORTH ≠ 0 → LED_Y c = 2 →
        ledModeColor 12 c = ⟨255, 255, 255⟩)
    ∧ (∀ c : ledConfig_t, c.flags &&& LED_FUNCTION_MODE ≠ 0 →
        c.flags &&& LED_DIRECTION_SOUTH ≠ 0 → LED_Y c = 9 →
        ledModeColor 12 c = ⟨255, 0, 0⟩) := by
  have hN12 : highestYValueForNorth 12 = 4 := by decide
  have hS12 : lowestYValueForSouth 12 = 6 := by decide
  refine ⟨⟨highestYValueForNorth_spec h h2 h256, lowestYValueForSouth_spec h h2 h256⟩,
    ?_, ?_, ?_, ?_, ?_, ⟨hN12, hS12⟩, ?_, ?_⟩
  · rw [getElem?_applyLEDModeLayerOn, if_pos ⟨hi, hlen⟩, ledModeColor_spec h _ h2 h256]
  · unfold applyLEDModeLayer
    rw [getElem?_applyLEDModeLayerOn, if_pos ⟨hi, hlen⟩, ledModeColor_spec h _ h2 h256]
  · intro c
    exact ⟨LED_Y_lt c, ledModeColor_spec h c h2 h256⟩
  · intro flags x y hy
    rw [ledModeColor_spec h _ h2 h256, LED_Y_pack x y flags hy]
  · intro height c hc
    unfold ledModeColor
    rw [if_pos hc]
    rfl
  · intro c hm hn hy
    unfold ledModeColor
    rw [if_neg hm, hN12, hy, if_pos ⟨hn, by omega⟩]
    rfl
  · intro c hm hs hy
    unfold ledModeColor
    rw [if_neg hm, hN12, hS12, hy, if_neg (by omega), if_pos ⟨hs, by omega⟩]
    rfl

theorem applyLEDModeLayer_spec_witness :
    2 ≤ 12 ∧ 12 < 256 ∧ 10 < WS2811_LED_STRIP_LENGTH
    ∧ 10 < exampleState.ledColorBuffer.length
    ∧ (applyLEDModeLayer 12 exampleState.ledColorBuffer)[10]?
        = some (spec_modeColor 12 (ledConfigs.getD 10 ⟨0, 0⟩).flags
            (LED_Y (ledConfigs.getD 10 ⟨0, 0⟩)))
    ∧ spec_modeColor 12 (ledConfigs.getD 10 ⟨0, 0⟩).flags (LED_Y (ledConfigs.getD 10 ⟨0, 0⟩))
        = ⟨255, 255, 255⟩ :=
  ⟨by decide, by decide, by decide, by decide,
    (applyLEDModeLayer_spec 12 ledConfigs exampleState.ledColorBuffer 10
      (by decide) (by decide) (by decide) (by decide)).2.2.1,
    by decide⟩

/-- C3: for every grid height `h` that fits 8 bits, the north boundary
computed by `applyLEDModeLayer` is even, and the south boundary is even or
equal to `h - 1` as the code stores it (the 8-bit value of
`ledGridHeight - 1`, which is 255 at `h = 0`; for `1 ≤ h` the south boundary
is even); and for `2 ≤ h ≤ 30` no y-coordinate is both below the north
boundary and at or above the south boundary. -/
theorem boundaries_even_and_disjoint (h : Nat) (h256 : h < 256) :
    highestYValueForNorth h % 2 = 0
    ∧ (lowestYValueForSouth h % 2 = 0 ∨ lowestYValueForSouth h = toU8 ((h : Int) - 1))
    ∧ (1 ≤ h → lowestYValueForSouth h % 2 = 0)
    ∧ (2 ≤ h → h ≤ 30 →
        ∀ y : Nat, ¬ (y < highestYValueForNorth h ∧ lowestYValueForSouth h ≤ y)) := by
  have hs1 : 1 ≤ h → lowestYValueForSouth h % 2 = 0 := by
    intro h1
    rw [lowestYValueForSouth_eq]
    unfold toU8
    split_ifs <;> omega
  refine ⟨?_, ?_, hs1, ?_⟩
  · rw [highestYValueForNorth_eq]
    omega
  · rcases Nat.eq_zero_or_pos h with h0 | hpos
    · right
      subst h0
      decide
    · left
      exact hs1 hpos
  · intro h2 _ y
    rw [highestYValueForNorth_spec h h2 h256, lowestYValueForSouth_spec h h2 h256]
    unfold spec_northBoundary spec_southBoundary
    split_ifs <;> omega

theorem boundaries_even_and_disjoint_witness :
    12 < 256
    ∧ (highestYValueForNorth 12 % 2 = 0
    ∧ (lowestYValueForSouth 12 % 2 = 0 ∨ lowestYValueForSouth 12 = toU8 ((12 : Int) - 1))
    ∧ (1 ≤ 12 → lowestYValueForSouth 12 % 2 = 0)
    ∧ (2 ≤ 12 → 12 ≤ 30 →
        ∀ y : Nat, ¬ (y < highestYValueForNorth 12 ∧ lowestYValueForSouth 12 ≤ y))) :=
  ⟨by decide, boundaries_even_and_disjoint 12 (by decide)⟩

/-- C4: the battery layer is active exactly when the battery flash state is
1, the VBAT feature is enabled and the battery alarm predicate is true; when
it is active every slot of the buffer is black after the battery pass,
whatever the pass-1 buffer held and without regard to the LED's flags (the
pass reads no LED flag); when it is not active the pass returns the pass-1
buffer unchanged. In an unskipped tick with roll and pitch within
[-50, 50], the buffer handed to the driver is the battery pass applied to
the output of `applyLEDModeLayer`. -/
theorem batteryLayer_spec (batteryFlashState : Nat) (featureVbat batteryAlarm : Bool)
    (pass1 : List rgbColor24bpp_t) :
    (batteryLayerActive batteryFlashState featureVbat batteryAlarm = true
      ↔ (batteryFlashState = 1 ∧ featureVbat = true ∧ batteryAlarm = true))
    ∧ (batteryLayerActive batteryFlashState featureVbat batteryAlarm = true →
        (batteryLayer batteryFlashState featureVbat batteryAlarm pass1).length = pass1.length
        ∧ ∀ i : Nat, i < pass1.length →
          (batteryLayer batteryFlashState featureVbat batteryAlarm pass1)[i]? = some ⟨0, 0, 0⟩)
    ∧ (batteryLayerActive batteryFlashState featureVbat batteryAlarm = false →
        batteryLayer batteryFlashState featureVbat batteryAlarm pass1 = pass1)
    ∧ (∀ (s : LedStripState) (inp : TickInput),
        inp.stripReady = true →
        (flashDue (toU32 inp.micros) s.nextBatteryFlashAt = true
          ∨ flashDue (toU32 inp.micros) s.nextIndicatorFlashAt = true) →
        -50 ≤ inp.roll → inp.roll ≤ 50 → -50 ≤ inp.pitch → inp.pitch ≤ 50 →
        (updateLedStrip s inp).ledColorBuffer
          = batteryLayer (updateLedStrip s inp).batteryFlashState inp.featureVbat
              inp.batteryAlarm (applyLEDModeLayer s.ledGridHeight s.ledColorBuffer)) := by
  refine ⟨batteryLayerActive_iff _ _ _, ?_, ?_, ?_⟩
  · intro hact
    refine ⟨length_batteryLayer _ _ _ _, ?_⟩
    intro i hi
    rw [getElem?_batteryLayer _ _ _ _ _ hi, if_pos hact]
    rfl
  · intro hinact
    unfold batteryLayer
    rw [hinact]
    rfl
  · intro s inp hready hdue hr1 hr2 hp1 hp2
    rw [updateLedStrip_of_due s inp hready hdue]
    simp only [ws2811UpdateStrip, indicatorLayer]
    rw [if_neg (by omega), if_neg (by omega), if_neg (by omega), if_neg (by omega)]

theorem batteryLayer_spec_witness :
    batteryLayerActive 1 true true = true
    ∧ (batteryLayer 1 true true [LED_WHITE, LED_RED, LED_PINK]).length = 3
    ∧ (batteryLayer 1 true true [LED_WHITE, LED_RED, LED_PINK])[1]? = some ⟨0, 0, 0⟩
    ∧ batteryLayerActive 0 true true = false
    ∧ batteryLayer 0 true true [LED_WHITE, LED_RED, LED_PINK]
        = [LED_WHITE, LED_RED, LED_PINK] :=
  ⟨by decide,
    ((batteryLayer_spec 1 true true [LED_WHITE, LED_RED, LED_PINK]).2.1 (by decide)).1,
    ((batteryLayer_spec 1 true true [LED_WHITE, LED_RED, LED_PINK]).2.1 (by decide)).2 1
      (by decide),
    by decide,
    (batteryLayer_spec 0 true true [LED_WHITE, LED_RED, LED_PINK]).2.2.1 (by decide)⟩

/-- C5: in the indicator pass `flashColor` is orange when the indicator
flash state is 0 and black when it is 1 (and for every other nonzero
value). On a buffer of the strip's length: for every roll < -50 with
-50 ≤ pitch ≤ 50 the pass sets slots 0 and 9 to `flashColor` and leaves
every other slot as it was; for every roll < -50 with pitch > 50, slots 0, 4
and 9 end as `flashColor`; for roll and pitch both within [-50, 50] the pass
returns the buffer unchanged. -/
theorem indicatorLayer_spec (indicatorFlashState : Nat) (roll pitch : Int)
    (buf : List rgbColor24bpp_t) (hlen : buf.length = WS2811_LED_STRIP_LENGTH) :
    (indicatorFlashColor 0 = orange ∧ indicatorFlashColor 1 = black
      ∧ (indicatorFlashState ≠ 0 → indicatorFlashColor indicatorFlashState = black))
    ∧ (roll < -50 → -50 ≤ pitch → pitch ≤ 50 →
        (indicatorLayer (indicatorFlashColor indicatorFlashState) roll pitch buf)[0]?
            = some (indicatorFlashColor indicatorFlashState)
        ∧ (indicatorLayer (indicatorFlashColor indicatorFlashState) roll pitch buf)[9]?
            = some (indicatorFlashColor indicatorFlashState)
        ∧ ∀ i : Nat, i ≠ 0 → i ≠ 9 →
            (indicatorLayer (indicatorFlashColor indicatorFlashState) roll pitch buf)[i]?
              = buf[i]?)
    ∧ (roll < -50 → pitch > 50 →
        (indicatorLayer (indicatorFlashColor indicatorFlashState) roll pitch buf)[0]?
            = some (indicatorFlashColor indicatorFlashState)
        ∧ (indicatorLayer (indicatorFlashColor indicatorFlashState) roll pitch buf)[4]?
            = some (indicatorFlashColor indicatorFlashState)
        ∧ (indicatorLayer (indicatorFlashColor indicatorFlashState) roll pitch buf)[9]?
            = some (indicatorFlashColor indicatorFlashState))
    ∧ (-50 ≤ roll → roll ≤ 50 → -50 ≤ pitch → pitch ≤ 50 →
        indicatorLayer (indicatorFlashColor indicatorFlashState) roll pitch buf = buf) := by
  have h10 : 10 ≤ buf.length := by
    rw [hlen]; decide
  refine ⟨⟨rfl, rfl, ?_⟩, ?_, ?_, ?_⟩
  · intro hne
    unfold indicatorFlashColor
    rw [if_neg hne]
  · intro hr hp1 hp2
    have ht : ∀ i : Nat, spec_indicatorTargets roll pitch i = true ↔ (i = 0 ∨ i = 9) := by
      intro i
      unfold spec_indicatorTargets
      rw [decide_eq_true_eq]
      constructor
      · rintro (⟨_, h⟩ | ⟨h, _⟩ | ⟨h, _⟩ | ⟨h, _⟩)
        · exact h
        · omega
        · omega
        · omega
      · intro h
        exact Or.inl ⟨hr, h⟩
    refine ⟨?_, ?_, ?_⟩
    · rw [getElem?_indicatorLayer _ _ _ _ h10, if_pos ((ht 0).2 (Or.inl rfl))]
    · rw [getElem?_indicatorLayer _ _ _ _ h10, if_pos ((ht 9).2 (Or.inr rfl))]
    · intro i i0 i9
      rw [getElem?_indicatorLayer _ _ _ _ h10, if_neg]
      intro hc
      rcases (ht i).1 hc with h | h
      · exact i0 h
      · exact i9 h
  · intro hr hp
    have ht : ∀ i : Nat, (i = 0 ∨ i = 4 ∨ i = 9) → spec_indicatorTargets roll pitch i = true := by
      intro i hi
      unfold spec_indicatorTargets
      rw [decide_eq_true_eq]
      rcases hi with h | h | h
      · exact Or.inl ⟨hr, Or.inl h⟩
      · exact Or.inr (Or.inr (Or.inl ⟨hp, Or.inr h⟩))
      · exact Or.inl ⟨hr, Or.inr h⟩
    refine ⟨?_, ?_, ?_⟩
    · rw [getElem?_indicatorLayer _ _ _ _ h10, if_pos (ht 0 (Or.inl rfl))]
    · rw [getElem?_indicatorLayer _ _ _ _ h10, if_pos (ht 4 (Or.inr (Or.inl rfl)))]
    · rw [getElem?_indicatorLayer _ _ _ _ h10, if_pos (ht 9 (Or.inr (Or.inr rfl)))]
  · intro hr1 hr2 hp1 hp2
    unfold indicatorLayer
    simp only []
    rw [if_neg (by omega), if_neg (by omega), if_neg (by omega), if_neg (by omega)]

theorem indicatorLayer_spec_witness :
    exampleState.ledColorBuffer.length = WS2811_LED_STRIP_LENGTH
    ∧ (-60 : Int) < -50 ∧ (60 : Int) > 50
    ∧ (indicatorLayer (indicatorFlashColor 0) (-60) 60 exampleState.ledColorBuffer)[0]?
        = some (indicatorFlashColor 0)
    ∧ (indicatorLayer (indicatorFlashColor 0) (-60) 60 exampleState.ledColorBuffer)[4]?
        = some (indicatorFlashColor 0)
    ∧ (indicatorLayer (indicatorFlashColor 0) (-60) 60 exampleState.ledColorBuffer)[9]?
        = some (indicatorFlashColor 0) :=
  ⟨by decide, by decide, by decide,
    (indicatorLayer_spec 0 (-60) 60 exampleState.ledColorBuffer (by decide)).2.2.1
      (by decide) (by decide)⟩

theorem flashDue_iff (now nextFlashAt : Nat) :
    flashDue now nextFlashAt = true
      ↔ toU32 ((now : Int) - (nextFlashAt : Int)) < 2147483648 := by
  unfold flashDue toI32
  rw [decide_eq_true_eq]
  have hlt := toU32_lt ((now : Int) - (nextFlashAt : Int))
  split_ifs <;> omega

/-- C6: the due test is wraparound-safe on the 32-bit clock. For every
32-bit `nextFireAt` and every elapsed time `d` with `0 ≤ d < 2^31`, the
clock value `(nextFireAt + d) mod 2^32` is judged due, also when it has
wrapped and is numerically smaller than `nextFireAt`; for every `d` with
`0 < d ≤ 2^31`, the clock value `(nextFireAt - d) mod 2^32` is judged not
due. -/
theorem flashDue_wraparound (nextFireAt d : Nat) (hn : nextFireAt < 4294967296) :
    (d < 2147483648 → flashDue ((nextFireAt + d) % 4294967296) nextFireAt = true)
    ∧ (d < 2147483648 → (nextFireAt + d) % 4294967296 < nextFireAt →
        flashDue ((nextFireAt + d) % 4294967296) nextFireAt = true)
    ∧ (0 < d → d ≤ 2147483648 →
        flashDue (toU32 ((nextFireAt : Int) - (d : Int))) nextFireAt = false) := by
  have hdue : d < 2147483648 → flashDue ((nextFireAt + d) % 4294967296) nextFireAt = true := by
    intro hd
    rw [flashDue_iff]
    unfold toU32
    omega
  refine ⟨hdue, fun hd _ => hdue hd, ?_⟩
  intro hd0 hd
  rw [← Bool.not_eq_true, flashDue_iff]
  unfold toU32
  omega

theorem flashDue_wraparound_witness :
    4294967290 < 4294967296
    ∧ 100 < 2147483648
    ∧ (4294967290 + 100) % 4294967296 < 4294967290
    ∧ flashDue ((4294967290 + 100) % 4294967296) 4294967290 = true
    ∧ flashDue (toU32 (((4294967290 : Nat) : Int) - ((2147483648 : Nat) : Int))) 4294967290
        = false :=
  ⟨by decide, by decide, by decide,
    (flashDue_wraparound 4294967290 100 (by decide)).2.1 (by decide) (by decide),
    (flashDue_wraparound 4294967290 2147483648 (by decide)).2.2 (by decide) (by decide)⟩

/-- C7: in every tick (strip ready) at clock value `now` in which a channel
is due, that channel's flash state is toggled (0 becomes 1, 1 and every other
nonzero value becomes 0) and its `nextFireAt` becomes
`(now + period) mod 2^32`, where the period is 100000 microseconds for the
battery channel and `indicatorPeriod` for the indicator channel; starting at
flash state 0, after the fire the state is 1. -/
theorem updateLedStrip_fire (s : LedStripState) (inp : TickInput)
    (hready : inp.stripReady = true) :
    (flashDue (inp.micros % 4294967296) s.nextBatteryFlashAt = true →
      (updateLedStrip s inp).nextBatteryFlashAt
          = (inp.micros % 4294967296 + 100000) % 4294967296
      ∧ (s.batteryFlashState = 0 → (updateLedStrip s inp).batteryFlashState = 1)
      ∧ (s.batteryFlashState ≠ 0 → (updateLedStrip s inp).batteryFlashState = 0))
    ∧ (flashDue (inp.micros % 4294967296) s.nextIndicatorFlashAt = true →
      ((updateLedStrip s inp).nextIndicatorFlashAt : Int)
          = ((inp.micros % 4294967296 : Nat) + indicatorPeriod inp.roll inp.pitch) % 4294967296
      ∧ (s.indicatorFlashState = 0 → (updateLedStrip s inp).indicatorFlashState = 1)
      ∧ (s.indicatorFlashState ≠ 0 → (updateLedStrip s inp).indicatorFlashState = 0)) := by
  have hnow : toU32 (inp.micros : Int) = inp.micros % 4294967296 := by
    unfold toU32; omega
  constructor
  · intro hb
    rw [← hnow] at hb
    rw [updateLedStrip_of_due s inp hready (Or.inl hb)]
    simp only [ws2811UpdateStrip, hb, if_true, toggleFlashState]
    refine ⟨?_, ?_, ?_⟩
    · rw [hnow]
      unfold toU32 LED_STRIP_10HZ
      omega
    · intro h0; rw [if_pos h0]
    · intro h0; rw [if_neg h0]
  · intro hi
    rw [← hnow] at hi
    rw [updateLedStrip_of_due s inp hready (Or.inr hi)]
    simp only [ws2811UpdateStrip, hi, if_true, toggleFlashState]
    refine ⟨?_, ?_, ?_⟩
    · rw [hnow]
      unfold toU32
      omega
    · intro h0; rw [if_pos h0]
    · intro h0; rw [if_neg h0]

theorem updateLedStrip_fire_witness :
    exampleInput.stripReady = true
    ∧ flashDue (exampleInput.micros % 4294967296) exampleState.nextBatteryFlashAt = true
    ∧ exampleState.batteryFlashState = 0
    ∧ (updateLedStrip exampleState exampleInput).nextBatteryFlashAt
        = (exampleInput.micros % 4294967296 + 100000) % 4294967296
    ∧ (updateLedStrip exampleState exampleInput).batteryFlashState = 1 :=
  ⟨by decide, by decide, by decide,
    ((updateLedStrip_fire exampleState exampleInput (by decide)).1 (by decide)).1,
    ((updateLedStrip_fire exampleState exampleInput (by decide)).1 (by decide)).2.1
      (by decide)⟩

theorem indicatorScale_eq (roll pitch : Int)
    (hr : roll.natAbs / 50 < 256) (hp : pitch.natAbs / 50 < 256) :
    indicatorScale roll pitch = max roll.natAbs pitch.natAbs / 50 := by
  unfold indicatorScale toU8
  simp only []
  omega

theorem indicatorPeriod_eq (roll pitch : Int) :
    indicatorPeriod roll pitch = ((200000 / max 1 (indicatorScale roll pitch) : Nat) : Int) := by
  unfold indicatorPeriod LED_STRIP_5HZ
  push_cast
  norm_num

/-- C8: for every roll and pitch whose quotients `|roll| / 50` and
`|pitch| / 50` are below 256, the scale the code computes (the maximum of the
two 8-bit quotients) is `max(|roll|, |pitch|) / 50`, and when the indicator
channel fires at `now` (strip ready) it schedules
`nextIndicatorFlashAt = (now + 200000 / max(1, max(|roll|, |pitch|) / 50))
mod 2^32`, with integer division. Roll 100 with pitch 0 gives the period
100000; roll 20 with pitch 30 gives 200000. -/
theorem updateLedStrip_indicator_period (s : LedStripState) (inp : TickInput)
    (hready : inp.stripReady = true)
    (hdue : flashDue (inp.micros % 4294967296) s.nextIndicatorFlashAt = true)
    (hr : inp.roll.natAbs / 50 < 256) (hp : inp.pitch.natAbs / 50 < 256) :
    indicatorScale inp.roll inp.pitch = max inp.roll.natAbs inp.pitch.natAbs / 50
    ∧ indicatorPeriod inp.roll inp.pitch
        = ((200000 / max 1 (max inp.roll.natAbs inp.pitch.natAbs / 50) : Nat) : Int)
    ∧ (updateLedStrip s inp).nextIndicatorFlashAt
        = (inp.micros % 4294967296
            + 200000 / max 1 (max inp.roll.natAbs inp.pitch.natAbs / 50)) % 4294967296
    ∧ indicatorPeriod 100 0 = 100000
    ∧ indicatorPeriod 20 30 = 200000 := by
  have hnow : toU32 (inp.micros : Int) = inp.micros % 4294967296 := by
    unfold toU32; omega
  have hscale := indicatorScale_eq inp.roll inp.pitch hr hp
  have hper : indicatorPeriod inp.roll inp.pitch
      = ((200000 / max 1 (max inp.roll.natAbs inp.pitch.natAbs / 50) : Nat) : Int) := by
    rw [indicatorPeriod_eq, hscale]
  refine ⟨hscale, hper, ?_, by decide, by decide⟩
  rw [← hnow] at hdue
  rw [updateLedStrip_of_due s inp hready (Or.inr hdue)]
  simp only [ws2811UpdateStrip, hdue, if_true]
  rw [hper, hnow]
  unfold toU32
  omega

theorem updateLedStrip_indicator_period_witness :
    exampleInput.stripReady = true
    ∧ flashDue (exampleInput.micros % 4294967296) exampleState.nextIndicatorFlashAt = true
    ∧ exampleInput.roll.natAbs / 50 < 256 ∧ exampleInput.pitch.natAbs / 50 < 256
    ∧ (updateLedStrip exampleState exampleInput).nextIndicatorFlashAt
        = (exampleInput.micros % 4294967296
            + 200000 / max 1 (max exampleInput.roll.natAbs exampleInput.pitch.natAbs / 50))
          % 4294967296 :=
  ⟨by decide, by decide, by decide, by decide,
    (updateLedStrip_indicator_period exampleState exampleInput
      (by decide) (by decide) (by decide) (by decide)).2.2.1⟩

/-- C9, as stated, fails: roll 12750 and roll 12800 (pitch 0) are signed
16-bit inputs with 12750 ≤ 12800, the first has period 784 and the second,
whose quotient 256 does not fit the 8-bit scale, has period 200000. -/
theorem indicatorPeriod_not_antitone_on_int16 :
    indicatorPeriod 12750 0 = 784
    ∧ indicatorPeriod 12800 0 = 200000
    ∧ ¬ (∀ roll1 pitch1 roll2 pitch2 : Int,
        -32768 ≤ roll1 → roll1 ≤ 32767 → -32768 ≤ pitch1 → pitch1 ≤ 32767 →
        -32768 ≤ roll2 → roll2 ≤ 32767 → -32768 ≤ pitch2 → pitch2 ≤ 32767 →
        max roll1.natAbs pitch1.natAbs ≤ max roll2.natAbs pitch2.natAbs →
        indicatorPeriod roll2 pitch2 ≤ indicatorPeriod roll1 pitch1) := by
  refine ⟨by decide, by decide, ?_⟩
  intro hall
  have h := hall 12750 0 12800 0 (by decide) (by decide) (by decide) (by decide)
    (by decide) (by decide) (by decide) (by decide) (by decide)
  revert h
  decide

/-- C9, amended: larger stick deflection never flashes slower as long as the
quotient fits the 8-bit scale: for all control inputs with
`max(|roll1|, |pitch1|) ≤ max(|roll2|, |pitch2|) < 12800`, the indicator
period for `(roll2, pitch2)` is at most the period for `(roll1, pitch1)`. -/
theorem indicatorPeriod_antitone (roll1 pitch1 roll2 pitch2 : Int)
    (hle : max roll1.natAbs pitch1.natAbs ≤ max roll2.natAbs pitch2.natAbs)
    (hfit : max roll2.natAbs pitch2.natAbs < 12800) :
    indicatorPeriod roll2 pitch2 ≤ indicatorPeriod roll1 pitch1 := by
  have e1 := indicatorScale_eq roll1 pitch1 (by omega) (by omega)
  have e2 := indicatorScale_eq roll2 pitch2 (by omega) (by omega)
  rw [indicatorPeriod_eq, indicatorPeriod_eq, e1, e2]
  have hq : max 1 (max roll1.natAbs pitch1.natAbs / 50)
      ≤ max 1 (max roll2.natAbs pitch2.natAbs / 50) := by
    omega
  exact_mod_cast Nat.div_le_div_left hq (by omega)

theorem indicatorPeriod_antitone_witness :
    max (100 : Int).natAbs (0 : Int).natAbs ≤ max (-499 : Int).natAbs (500 : Int).natAbs
    ∧ max (-499 : Int).natAbs (500 : Int).natAbs < 12800
    ∧ indicatorPeriod (-499) 500 ≤ indicatorPeriod 100 0 :=
  ⟨by decide, by decide, indicatorPeriod_antitone 100 0 (-499) 500 (by decide) (by decide)⟩

/-- C10: a skipped tick is a complete no-op. If the strip is not ready, or
it is ready but neither the battery nor the indicator channel is due at
`now`, `updateLedStrip` returns the state it was given: both timestamps,
both flash states, `flashColor`, every slot of the render buffer (layer 1 is
not rendered again) and the list of frames handed to the driver (nothing is
committed) are unchanged. -/
theorem updateLedStrip_skip (s : LedStripState) (inp : TickInput)
    (hskip : inp.stripReady = false
      ∨ (flashDue (inp.micros % 4294967296) s.nextBatteryFlashAt = false
        ∧ flashDue (inp.micros % 4294967296) s.nextIndicatorFlashAt = false)) :
    updateLedStrip s inp = s
    ∧ (updateLedStrip s inp).nextBatteryFlashAt = s.nextBatteryFlashAt
    ∧ (updateLedStrip s inp).nextIndicatorFlashAt = s.nextIndicatorFlashAt
    ∧ (updateLedStrip s inp).batteryFlashState = s.batteryFlashState
    ∧ (updateLedStrip s inp).indicatorFlashState = s.indicatorFlashState
    ∧ (updateLedStrip s inp).ledColorBuffer = s.ledColorBuffer
    ∧ (updateLedStrip s inp).transmitted = s.transmitted := by
  have hnow : toU32 (inp.micros : Int) = inp.micros % 4294967296 := by
    unfold toU32; omega
  rw [← hnow] at hskip
  rw [updateLedStrip_of_skip s inp hskip]
  exact ⟨rfl, rfl, rfl, rfl, rfl, rfl, rfl⟩

theorem updateLedStrip_skip_witness :
    (exampleInput.stripReady = false
      ∨ (flashDue (exampleInput.micros % 4294967296)
            (updateLedStrip exampleState exampleInput).nextBatteryFlashAt = false
        ∧ flashDue (exampleInput.micros % 4294967296)
            (updateLedStrip exampleState exampleInput).nextIndicatorFlashAt = false))
    ∧ updateLedStrip (updateLedStrip exampleState exampleInput) exampleInput
        = updateLedStrip exampleState exampleInput :=
  ⟨by decide,
    (updateLedStrip_skip (updateLedStrip exampleState exampleInput) exampleInput
      (by decide)).1⟩

/-- What a tick does to the battery channel, in every case. -/
theorem battery_channel_step (s : LedStripState) (inp : TickInput) :
    (updateLedStrip s inp).nextBatteryFlashAt
        = (if inp.stripReady = true ∧ flashDue (toU32 inp.micros) s.nextBatteryFlashAt = true
            then toU32 ((toU32 inp.micros : Int) + LED_STRIP_10HZ) else s.nextBatteryFlashAt)
    ∧ (updateLedStrip s inp).batteryFlashState
        = (if inp.stripReady = true ∧ flashDue (toU32 inp.micros) s.nextBatteryFlashAt = true
            then toggleFlashState s.batteryFlashState else s.batteryFlashState) := by
  cases hready : inp.stripReady
  · rw [updateLedStrip_of_skip s inp (Or.inl hready)]
    simp
  · cases hb : flashDue (toU32 inp.micros) s.nextBatteryFlashAt
    · cases hi : flashDue (toU32 inp.micros) s.nextIndicatorFlashAt
      · rw [updateLedStrip_of_skip s inp (Or.inr ⟨hb, hi⟩)]
        simp
      · rw [updateLedStrip_of_due s inp hready (Or.inr hi)]
        simp [ws2811UpdateStrip, hb]
    · rw [updateLedStrip_of_due s inp hready (Or.inl hb)]
      simp [ws2811UpdateStrip, hb]

/-- What a tick does to the indicator channel, in every case. -/
theorem indicator_channel_step (s : LedStripState) (inp : TickInput) :
    (updateLedStrip s inp).nextIndicatorFlashAt
        = (if inp.stripReady = true ∧ flashDue (toU32 inp.micros) s.nextIndicatorFlashAt = true
            then toU32 ((toU32 inp.micros : Int) + indicatorPeriod inp.roll inp.pitch)
            else s.nextIndicatorFlashAt)
    ∧ (updateLedStrip s inp).indicatorFlashState
        = (if inp.stripReady = true ∧ flashDue (toU32 inp.micros) s.nextIndicatorFlashAt = true
            then toggleFlashState s.indicatorFlashState else s.indicatorFlashState) := by
  cases hready : inp.stripReady
  · rw [updateLedStrip_of_skip s inp (Or.inl hready)]
    simp
  · cases hi : flashDue (toU32 inp.micros) s.nextIndicatorFlashAt
    · cases hb : flashDue (toU32 inp.micros) s.nextBatteryFlashAt
      · rw [updateLedStrip_of_skip s inp (Or.inr ⟨hb, hi⟩)]
        simp
      · rw [updateLedStrip_of_due s inp hready (Or.inl hb)]
        simp [ws2811UpdateStrip, hi]
    · rw [updateLedStrip_of_due s inp hready (Or.inr hi)]
      simp [ws2811UpdateStrip, hi]

theorem indicatorScale_le (roll pitch : Int) : indicatorScale roll pitch ≤ 255 := by
  unfold indicatorScale
  simp only []
  have h1 := toU8_lt ((roll.natAbs : Int) / 50)
  have h2 := toU8_lt ((pitch.natAbs : Int) / 50)
  omega

theorem indicatorPeriod_bounds (roll pitch : Int) :
    784 ≤ indicatorPeriod roll pitch ∧ indicatorPeriod roll pitch ≤ 200000 := by
  rw [indicatorPeriod_eq]
  have hs := indicatorScale_le roll pitch
  have hd : max 1 (indicatorScale roll pitch) ≤ 255 := by omega
  have hpos : 0 < max 1 (indicatorScale roll pitch) := by omega
  have hlo : 200000 / 255 ≤ 200000 / max 1 (indicatorScale roll pitch) :=
    Nat.div_le_div_left hd hpos
  have hhi : 200000 / max 1 (indicatorScale roll pitch) ≤ 200000 := Nat.div_le_self _ _
  constructor
  · have : (784 : Nat) ≤ 200000 / max 1 (indicatorScale roll pitch) := by
      have e : 200000 / 255 = 784 := by norm_num
      omega
    exact_mod_cast this
  · exact_mod_cast hhi

theorem toU32_micros (n : Nat) : toU32 (n : Int) = n % 4294967296 := by
  unfold toU32; omega

/-- C12, code at the failing input: for every x and y in 0..15 and every
flag set, the byte that the initializer `{ LED_XY(x, y), flags }` stores is
`y` alone, because `LED_XY` masks `x` with `LED_X_MASK` (0xF0) before the
shift; `LED_Y` recovers `y` from it, but `LED_X` yields 0. For the first
entry of the table, `LED_XY(9, 9)` is 9 and `LED_X` of the entry is 0, not
9. -/
theorem LED_XY_drops_x :
    LED_XY 9 9 = 9
    ∧ LED_X (ledEntry 9 9 (LED_DIRECTION_SOUTH ||| LED_FUNCTION_MODE ||| LED_FUNCTION_BATTERY)) = 0
    ∧ LED_Y (ledEntry 9 9 (LED_DIRECTION_SOUTH ||| LED_FUNCTION_MODE ||| LED_FUNCTION_BATTERY)) = 9
    ∧ (∀ (x y : Fin 16) (flags : Nat),
        (ledEntry x y flags).xy = y
        ∧ LED_X (ledEntry x y flags) = 0
        ∧ LED_Y (ledEntry x y flags) = y)
    ∧ (∀ i : Fin 28, LED_X (ledConfigs.getD i ⟨0, 0⟩) = 0) := by
  have hall : ∀ x y : Fin 16,
      toU8 (LED_XY x y) = y
      ∧ (toU8 (LED_XY x y) &&& LED_X_MASK) >>> LED_X_BIT_OFFSET = 0
      ∧ (toU8 (LED_XY x y) &&& LED_Y_MASK) >>> LED_Y_BIT_OFFSET = y := by
    decide
  refine ⟨by decide, by decide, by decide, ?_, by decide⟩
  intro x y flags
  exact hall x y

/-- C13, as stated, fails. With the grid of `ledStripInit`, slot 0 of the
table lacks FUNCTION_INDICATOR and is red after pass 1, and the indicator
pass at roll -60 writes `flashColor` to it; slot 10 lacks FUNCTION_BATTERY
and is white after pass 1, and the active battery pass makes it black. The
same happens in whole ticks of `updateLedStrip`. -/
theorem override_passes_ignore_function_flags :
    ((ledConfigs.getD 0 ⟨0, 0⟩).flags &&& LED_FUNCTION_INDICATOR = 0
      ∧ (applyLEDModeLayer 12 exampleState.ledColorBuffer)[0]? = some LED_RED
      ∧ (indicatorLayer (indicatorFlashColor 0) (-60) 0
          (applyLEDModeLayer 12 exampleState.ledColorBuffer))[0]? = some LED_ORANGE
      ∧ (updateLedStrip exampleState ⟨true, 1000, false, false, -60, 0⟩).ledColorBuffer[0]?
          = some LED_BLACK)
    ∧ ((ledConfigs.getD 10 ⟨0, 0⟩).flags &&& LED_FUNCTION_BATTERY = 0
      ∧ (applyLEDModeLayer 12 exampleState.ledColorBuffer)[10]? = some LED_WHITE
      ∧ (batteryLayer 1 true true
          (applyLEDModeLayer 12 exampleState.ledColorBuffer))[10]? = some LED_BLACK
      ∧ (updateLedStrip exampleState ⟨true, 1000, true, true, 0, 0⟩).ledColorBuffer[10]?
          = some LED_BLACK) := by
  refine ⟨⟨by decide, by decide, by decide, by decide⟩,
    ⟨by decide, by decide, by decide, by decide⟩⟩

/-- C13, amended: an override pass leaves untouched every slot it does not
target, and what it targets does not depend on the function flags of the
LED. On a buffer of the strip's length the indicator pass changes no slot
other than 0, 4, 5 and 9, and no slot that no holding roll or pitch
condition targets; the battery pass returns the buffer unchanged when the
battery layer is not active, and when it is active it makes every slot
black, with or without FUNCTION_BATTERY. An untouched slot keeps the color
the prior layer gave it. -/
theorem override_passes_untouched_slots (flashColor : rgbColor24bpp_t) (roll pitch : Int)
    (batteryFlashState : Nat) (featureVbat batteryAlarm : Bool)
    (buf : List rgbColor24bpp_t) (hlen : buf.length = WS2811_LED_STRIP_LENGTH) :
    (∀ i : Nat, i ≠ 0 → i ≠ 4 → i ≠ 5 → i ≠ 9 →
        (indicatorLayer flashColor roll pitch buf)[i]? = buf[i]?)
    ∧ (∀ i : Nat, spec_indicatorTargets roll pitch i = false →
        (indicatorLayer flashColor roll pitch buf)[i]? = buf[i]?)
    ∧ (batteryLayerActive batteryFlashState featureVbat batteryAlarm = false →
        batteryLayer batteryFlashState featureVbat batteryAlarm buf = buf)
    ∧ (batteryLayerActive batteryFlashState featureVbat batteryAlarm = true →
        ∀ i : Nat, i < WS2811_LED_STRIP_LENGTH →
          (batteryLayer batteryFlashState featureVbat batteryAlarm buf)[i]? = some black) := by
  have h10 : 10 ≤ buf.length := by
    rw [hlen]; decide
  have hnot : ∀ i : Nat, spec_indicatorTargets roll pitch i = false →
      (indicatorLayer flashColor roll pitch buf)[i]? = buf[i]? := by
    intro i hi
    rw [getElem?_indicatorLayer _ _ _ _ h10, hi]
    rfl
  refine ⟨?_, hnot, ?_, ?_⟩
  · intro i i0 i4 i5 i9
    apply hnot
    unfold spec_indicatorTargets
    rw [decide_eq_false_iff_not]
    rintro (⟨_, h | h⟩ | ⟨_, h | h⟩ | ⟨_, h | h⟩ | ⟨_, h | h⟩) <;> omega
  · intro hinact
    unfold batteryLayer
    rw [hinact]
    rfl
  · intro hact i hi
    rw [getElem?_batteryLayer _ _ _ _ _ (by rw [hlen]; exact hi), if_pos hact]

theorem override_passes_untouched_slots_witness :
    exampleState.ledColorBuffer.length = WS2811_LED_STRIP_LENGTH
    ∧ (3 : Nat) ≠ 0 ∧ (3 : Nat) ≠ 4 ∧ (3 : Nat) ≠ 5 ∧ (3 : Nat) ≠ 9
    ∧ (indicatorLayer LED_ORANGE (-60) 60 exampleState.ledColorBuffer)[3]?
        = exampleState.ledColorBuffer[3]?
    ∧ batteryLayerActive 0 true true = false
    ∧ batteryLayer 0 true true exampleState.ledColorBuffer = exampleState.ledColorBuffer :=
  ⟨by decide, by decide, by decide, by decide, by decide,
    (override_passes_untouched_slots LED_ORANGE (-60) 60 0 true true
      exampleState.ledColorBuffer (by decide)).1 3 (by decide) (by decide) (by decide)
      (by decide),
    by decide,
    (override_passes_untouched_slots LED_ORANGE (-60) 60 0 true true
      exampleState.ledColorBuffer (by decide)).2.2.1 (by decide)⟩

/-- C14: the two flash channels are independent. In every tick in which the
indicator channel is not due (so at most the battery channel is), the
indicator timestamp and flash state are unchanged; in every tick in which the
battery channel is not due, the battery timestamp and flash state are
unchanged; and the battery timestamp and flash state after a tick are the
same for every roll and pitch. -/
theorem flash_channels_independent (s : LedStripState) (inp : TickInput) :
    (flashDue (inp.micros % 4294967296) s.nextIndicatorFlashAt = false →
      (updateLedStrip s inp).nextIndicatorFlashAt = s.nextIndicatorFlashAt
      ∧ (updateLedStrip s inp).indicatorFlashState = s.indicatorFlashState)
    ∧ (flashDue (inp.micros % 4294967296) s.nextBatteryFlashAt = false →
      (updateLedStrip s inp).nextBatteryFlashAt = s.nextBatteryFlashAt
      ∧ (updateLedStrip s inp).batteryFlashState = s.batteryFlashState)
    ∧ (∀ roll pitch : Int,
      (updateLedStrip s { inp with roll := roll, pitch := pitch }).nextBatteryFlashAt
          = (updateLedStrip s inp).nextBatteryFlashAt
      ∧ (updateLedStrip s { inp with roll := roll, pitch := pitch }).batteryFlashState
          = (updateLedStrip s inp).batteryFlashState) := by
  refine ⟨?_, ?_, ?_⟩
  · intro hi
    rw [← toU32_micros] at hi
    have h := indicator_channel_step s inp
    rw [hi] at h
    simpa using h
  · intro hb
    rw [← toU32_micros] at hb
    have h := battery_channel_step s inp
    rw [hb] at h
    simpa using h
  · intro roll pitch
    have h1 := battery_channel_step s inp
    have h2 := battery_channel_step s { inp with roll := roll, pitch := pitch }
    exact ⟨h2.1.trans h1.1.symm, h2.2.trans h1.2.symm⟩

theorem flash_channels_independent_witness :
    flashDue (1000 % 4294967296)
        (updateLedStrip exampleState exampleInput).nextIndicatorFlashAt = false
    ∧ (updateLedStrip (updateLedStrip exampleState exampleInput)
          { exampleInput with micros := 150000 }).nextIndicatorFlashAt
        = (updateLedStrip exampleState exampleInput).nextIndicatorFlashAt
    ∧ (updateLedStrip (updateLedStrip exampleState exampleInput)
          { exampleInput with micros := 150000 }).nextBatteryFlashAt = 250000 :=
  ⟨by decide,
    ((flash_channels_independent (updateLedStrip exampleState exampleInput)
      { exampleInput with micros := 150000 }).1 (by decide)).1,
    by decide⟩

theorem applyLEDModeLayerOn_eq_map (configs : List ledConfig_t) (h : Nat)
    (buf : List rgbColor24bpp_t) (hlen : buf.length = WS2811_LED_STRIP_LENGTH) :
    applyLEDModeLayerOn configs h buf
      = (List.range WS2811_LED_STRIP_LENGTH).map
          (fun i => ledModeColor h (configs.getD i ⟨0, 0⟩)) := by
  apply List.ext_getElem?
  intro i
  rw [getElem?_applyLEDModeLayerOn, hlen]
  by_cases hi : i < WS2811_LED_STRIP_LENGTH
  · rw [if_pos ⟨hi, hi⟩, List.getElem?_map, List.getElem?_range hi]
    rfl
  · rw [if_neg (fun hc => hi hc.1), List.getElem?_eq_none (by rw [hlen]; omega),
      List.getElem?_eq_none (by simp only [List.length_map, List.length_range]; omega)]

/-- C15: with the grid dimensions set by `ledStripInit` (12 by 12) and the
built-in table of 28 LEDs, `applyLEDModeLayer` leaves, in any buffer of the
strip's length, red in slots 0, 1, 26 and 27, white in slots 10 to 17 and
black in every other slot; slots 6 and 7 hold SOUTH+MODE LEDs at y = 5 and
y = 4 and are black. -/
theorem applyLEDModeLayer_builtin (s : LedStripState) (buf : List rgbColor24bpp_t)
    (hlen : buf.length = WS2811_LED_STRIP_LENGTH) :
    ((ledStripInit s).ledGridWidth = 12 ∧ (ledStripInit s).ledGridHeight = 12
      ∧ ledConfigs.length = 28)
    ∧ applyLEDModeLayer (ledStripInit s).ledGridHeight buf
        = [⟨255, 0, 0⟩, ⟨255, 0, 0⟩, ⟨0, 0, 0⟩, ⟨0, 0, 0⟩, ⟨0, 0, 0⟩, ⟨0, 0, 0⟩,
           ⟨0, 0, 0⟩, ⟨0, 0, 0⟩, ⟨0, 0, 0⟩, ⟨0, 0, 0⟩,
           ⟨255, 255, 255⟩, ⟨255, 255, 255⟩, ⟨255, 255, 255⟩, ⟨255, 255, 255⟩,
           ⟨255, 255, 255⟩, ⟨255, 255, 255⟩, ⟨255, 255, 255⟩, ⟨255, 255, 255⟩,
           ⟨0, 0, 0⟩, ⟨0, 0, 0⟩, ⟨0, 0, 0⟩, ⟨0, 0, 0⟩, ⟨0, 0, 0⟩, ⟨0, 0, 0⟩,
           ⟨0, 0, 0⟩, ⟨0, 0, 0⟩, ⟨255, 0, 0⟩, ⟨255, 0, 0⟩]
    ∧ (∀ i : Nat, i < WS2811_LED_STRIP_LENGTH →
        (applyLEDModeLayer (ledStripInit s).ledGridHeight buf)[i]?
          = some (if 10 ≤ i ∧ i ≤ 17 then ⟨255, 255, 255⟩
                  else if i = 0 ∨ i = 1 ∨ i = 26 ∨ i = 27 then ⟨255, 0, 0⟩
                  else ⟨0, 0, 0⟩))
    ∧ ((ledConfigs.getD 6 ⟨0, 0⟩).flags = LED_DIRECTION_SOUTH ||| LED_FUNCTION_MODE
      ∧ LED_Y (ledConfigs.getD 6 ⟨0, 0⟩) = 5
      ∧ (ledConfigs.getD 7 ⟨0, 0⟩).flags = LED_DIRECTION_SOUTH ||| LED_FUNCTION_MODE
      ∧ LED_Y (ledConfigs.getD 7 ⟨0, 0⟩) = 4) := by
  have hmap : applyLEDModeLayer (ledStripInit s).ledGridHeight buf
      = (List.range WS2811_LED_STRIP_LENGTH).map
          (fun i => ledModeColor 12 (ledConfigs.getD i ⟨0, 0⟩)) :=
    applyLEDModeLayerOn_eq_map ledConfigs 12 buf hlen
  refine ⟨⟨rfl, rfl, rfl⟩, ?_, ?_, by decide⟩
  · rw [hmap]
    decide
  · intro i hi
    rw [hmap, List.getElem?_map, List.getElem?_range hi]
    have h28 : WS2811_LED_STRIP_LENGTH = 28 := rfl
    rw [h28] at hi
    interval_cases i <;> decide

theorem applyLEDModeLayer_builtin_witness :
    exampleState.ledColorBuffer.length = WS2811_LED_STRIP_LENGTH
    ∧ 6 < WS2811_LED_STRIP_LENGTH
    ∧ (applyLEDModeLayer (ledStripInit exampleState).ledGridHeight
          exampleState.ledColorBuffer)[6]?
        = some (if 10 ≤ 6 ∧ 6 ≤ 17 then ⟨255, 255, 255⟩
                else if 6 = 0 ∨ 6 = 1 ∨ 6 = 26 ∨ 6 = 27 then ⟨255, 0, 0⟩
                else ⟨0, 0, 0⟩) :=
  ⟨by decide, by decide,
    (applyLEDModeLayer_builtin exampleState exampleState.ledColorBuffer (by decide)).2.2.1 6
      (by decide)⟩

/-- C16: for every grid height `h` with `2 ≤ h ≤ 255`, the south boundary
minus the north boundary is 0 or 2, the clamp to `h - 1` never takes effect
(when the stored `(h / 2) - 1` is odd, the minimum is that value plus one)
and the south boundary is even. When `h / 2 - 1` is odd the boundaries are
`h / 2 - 2` and `h / 2`, and every FUNCTION_MODE LED whose y-coordinate is
`h / 2 - 2` or `h / 2 - 1` is black in pass 1, whatever its direction
flags. -/
theorem boundary_gap (h : Nat) (h2 : 2 ≤ h) (h255 : h ≤ 255) :
    (highestYValueForNorth h ≤ lowestYValueForSouth h
      ∧ (lowestYValueForSouth h - highestYValueForNorth h = 0
        ∨ lowestYValueForSouth h - highestYValueForNorth h = 2))
    ∧ (toU8 (((h / 2 : Nat) : Int) - 1) % 2 = 1 →
        min ((toU8 (((h / 2 : Nat) : Int) - 1) : Int) + 1) ((h : Int) - 1)
          = (toU8 (((h / 2 : Nat) : Int) - 1) : Int) + 1)
    ∧ lowestYValueForSouth h % 2 = 0
    ∧ ((h / 2 - 1) % 2 = 1 →
        highestYValueForNorth h = h / 2 - 2
        ∧ lowestYValueForSouth h = h / 2
        ∧ ∀ c : ledConfig_t, c.flags &&& LED_FUNCTION_MODE ≠ 0 →
            (LED_Y c = h / 2 - 2 ∨ LED_Y c = h / 2 - 1) →
            ledModeColor h c = ⟨0, 0, 0⟩) := by
  have hN := highestYValueForNorth_spec h h2 (by omega)
  have hS := lowestYValueForSouth_spec h h2 (by omega)
  unfold spec_northBoundary at hN
  unfold spec_southBoundary at hS
  have hS2 : lowestYValueForSouth h = (h / 2 - 1) + (h / 2 - 1) % 2 := by
    rw [hS]
    split_ifs <;> omega
  refine ⟨?_, ?_, ?_, ?_⟩
  · rw [hN, hS2]
    omega
  · intro _
    unfold toU8
    omega
  · rw [hS2]
    omega
  · intro hodd
    have hn : highestYValueForNorth h = h / 2 - 2 := by
      rw [hN]; omega
    have hs : lowestYValueForSouth h = h / 2 := by
      rw [hS2]; omega
    refine ⟨hn, hs, ?_⟩
    intro c hm hy
    unfold ledModeColor
    rw [if_neg hm, hn, hs, if_neg (by omega), if_neg (by omega)]
    rfl

theorem boundary_gap_witness :
    2 ≤ 12 ∧ 12 ≤ 255 ∧ (12 / 2 - 1) % 2 = 1
    ∧ highestYValueForNorth 12 = 12 / 2 - 2
    ∧ lowestYValueForSouth 12 = 12 / 2
    ∧ (ledConfigs.getD 6 ⟨0, 0⟩).flags &&& LED_FUNCTION_MODE ≠ 0
    ∧ LED_Y (ledConfigs.getD 6 ⟨0, 0⟩) = 12 / 2 - 1
    ∧ ledModeColor 12 (ledConfigs.getD 6 ⟨0, 0⟩) = ⟨0, 0, 0⟩ :=
  ⟨by decide, by decide, by decide,
    ((boundary_gap 12 (by decide) (by decide)).2.2.2 (by decide)).1,
    ((boundary_gap 12 (by decide) (by decide)).2.2.2 (by decide)).2.1,
    by decide, by decide,
    ((boundary_gap 12 (by decide) (by decide)).2.2.2 (by decide)).2.2
      (ledConfigs.getD 6 ⟨0, 0⟩) (by decide) (Or.inr (by decide))⟩

theorem not_due_after_period (now : Nat) (period : Int)
    (h1 : 1 ≤ period) (h2 : period ≤ 2147483648) :
    flashDue (toU32 now) (toU32 ((toU32 now : Int) + period)) = false := by
  rw [← Bool.not_eq_true, flashDue_iff]
  unfold toU32
  omega

/-- C17: `updateLedStrip` is idempotent at a fixed clock value. For every
state, with the strip ready in the first call, after one call at `now`
neither channel is due at `now`, and a second call at the same clock value,
with any inputs, returns the state of the first call unchanged: no
timestamp, no flash state and no buffer slot changes and no frame is
committed. -/
theorem updateLedStrip_idempotent (s : LedStripState) (inp inp2 : TickInput)
    (hready : inp.stripReady = true)
    (hnow : inp2.micros % 4294967296 = inp.micros % 4294967296) :
    flashDue (inp.micros % 4294967296) (updateLedStrip s inp).nextBatteryFlashAt = false
    ∧ flashDue (inp.micros % 4294967296) (updateLedStrip s inp).nextIndicatorFlashAt = false
    ∧ updateLedStrip (updateLedStrip s inp) inp2 = updateLedStrip s inp
    ∧ (updateLedStrip (updateLedStrip s inp) inp2).transmitted
        = (updateLedStrip s inp).transmitted := by
  have hb : flashDue (toU32 inp.micros) (updateLedStrip s inp).nextBatteryFlashAt = false := by
    rw [(battery_channel_step s inp).1]
    cases hd : flashDue (toU32 inp.micros) s.nextBatteryFlashAt
    · simp [hd]
    · simp only [hready, hd, and_self, if_true]
      exact not_due_after_period inp.micros LED_STRIP_10HZ (by decide) (by decide)
  have hi : flashDue (toU32 inp.micros) (updateLedStrip s inp).nextIndicatorFlashAt = false := by
    rw [(indicator_channel_step s inp).1]
    cases hd : flashDue (toU32 inp.micros) s.nextIndicatorFlashAt
    · simp [hd]
    · simp only [hready, hd, and_self, if_true]
      have hp := indicatorPeriod_bounds inp.roll inp.pitch
      exact not_due_after_period inp.micros _ (by omega) (by omega)
  have h2 : toU32 (inp2.micros : Int) = toU32 (inp.micros : Int) := by
    rw [toU32_micros, toU32_micros, hnow]
  have hskip : updateLedStrip (updateLedStrip s inp) inp2 = updateLedStrip s inp :=
    updateLedStrip_of_skip _ inp2 (Or.inr ⟨by rw [h2]; exact hb, by rw [h2]; exact hi⟩)
  rw [toU32_micros] at hb hi
  exact ⟨hb, hi, hskip, by rw [hskip]⟩

theorem updateLedStrip_idempotent_witness :
    exampleInput.stripReady = true
    ∧ exampleInput.micros % 4294967296 = exampleInput.micros % 4294967296
    ∧ updateLedStrip (updateLedStrip exampleState exampleInput) exampleInput
        = updateLedStrip exampleState exampleInput
    ∧ (updateLedStrip exampleState exampleInput).transmitted.length = 1 :=
  ⟨by decide, by decide,
    (updateLedStrip_idempotent exampleState exampleInput exampleInput
      (by decide) (by decide)).2.2.1,
    by decide⟩

/-- C18: for every roll and pitch, the divisor `max(1, scale)` used when the
indicator channel fires is at least 1 and at most 255, so the division is
never by zero, and the indicator period `LED_STRIP_5HZ / max(1, scale)` lies
between 784 and 200000 microseconds inclusive; both ends are reached. -/
theorem indicator_divisor_and_period_bounds :
    (∀ roll pitch : Int,
      1 ≤ max 1 (indicatorScale roll pitch) ∧ max 1 (indicatorScale roll pitch) ≤ 255
      ∧ 784 ≤ indicatorPeriod roll pitch ∧ indicatorPeriod roll pitch ≤ 200000)
    ∧ indicatorPeriod 12750 0 = 784
    ∧ indicatorPeriod 0 0 = 200000 := by
  refine ⟨?_, by decide, by decide⟩
  intro roll pitch
  have hs := indicatorScale_le roll pitch
  have hp := indicatorPeriod_bounds roll pitch
  exact ⟨by omega, by omega, hp.1, hp.2⟩

theorem fireLog_after_fire (next st : LedStripState → Nat) (period : TickInput → Nat)
    (hstep : ∀ s inp,
      (channelFires next s inp = true →
        next (updateLedStrip s inp) = (inp.micros + period inp) % 4294967296
        ∧ st (updateLedStrip s inp) = toggleFlashState (st s))
      ∧ (channelFires next s inp = false →
        next (updateLedStrip s inp) = next s ∧ st (updateLedStrip s inp) = st s)) :
    ∀ (ticks : List TickInput) (s : LedStripState) (tf pf : Nat),
      pf ≤ 2147483648 → next s = (tf + pf) % 4294967296 →
      (∀ inp ∈ ticks, tf ≤ inp.micros ∧ period inp ≤ 2147483648) →
      List.Pairwise (· ≤ ·) (ticks.map TickInput.micros) →
      List.Chain (fun a b : Nat × Nat => a.1 + a.2 ≤ b.1) (tf, pf) (fireLog next period s ticks)
      ∧ st (runTicks s ticks)
          = toggleFlashState^[(fireLog next period s ticks).length] (st s)
      ∧ next (runTicks s ticks)
          = (((fireLog next period s ticks).getLastD (tf, pf)).1
              + ((fireLog next period s ticks).getLastD (tf, pf)).2) % 4294967296 := by
  intro ticks
  induction ticks with
  | nil =>
    intro s tf pf _ hn _ _
    exact ⟨List.Chain.nil, rfl, hn⟩
  | cons inp rest ih =>
    intro s tf pf hpf hn hge hsorted
    have hs := hstep s inp
    rw [List.map_cons, List.pairwise_cons] at hsorted
    have hrun : runTicks s (inp :: rest) = runTicks (updateLedStrip s inp) rest := rfl
    cases hf : channelFires next s inp
    · have hlog : fireLog next period s (inp :: rest)
          = fireLog next period (updateLedStrip s inp) rest := by
        simp [fireLog, hf]
      obtain ⟨hn1, hst1⟩ := hs.2 hf
      have h := ih (updateLedStrip s inp) tf pf hpf (hn1.trans hn)
        (fun i hi => hge i (List.mem_cons_of_mem _ hi)) hsorted.2
      rw [hlog, hrun, ← hst1]
      exact h
    · have hlog : fireLog next period s (inp :: rest)
          = (inp.micros, period inp) :: fireLog next period (updateLedStrip s inp) rest := by
        simp [fireLog, hf]
      obtain ⟨hn1, hst1⟩ := hs.1 hf
      have hinp := hge inp (List.mem_cons_self _ _)
      have hdue : flashDue (toU32 inp.micros) (next s) = true := by
        unfold channelFires at hf
        rw [Bool.and_eq_true] at hf
        exact hf.2
      have hgap : tf + pf ≤ inp.micros := by
        rw [flashDue_iff, hn] at hdue
        unfold toU32 at hdue
        omega
      have h := ih (updateLedStrip s inp) inp.micros (period inp) hinp.2 hn1
        (fun i hi => ⟨hsorted.1 i.micros (List.mem_map_of_mem _ hi),
          (hge i (List.mem_cons_of_mem _ hi)).2⟩) hsorted.2
      rw [hlog, hrun]
      refine ⟨List.Chain.cons hgap h.1, ?_, ?_⟩
      · rw [h.2.1, hst1, List.length_cons, Function.iterate_succ_apply]
      · rw [h.2.2, List.getLastD_cons]

theorem fireLog_run (next st : LedStripState → Nat) (period : TickInput → Nat)
    (hstep : ∀ s inp,
      (channelFires next s inp = true →
        next (updateLedStrip s inp) = (inp.micros + period inp) % 4294967296
        ∧ st (updateLedStrip s inp) = toggleFlashState (st s))
      ∧ (channelFires next s inp = false →
        next (updateLedStrip s inp) = next s ∧ st (updateLedStrip s inp) = st s)) :
    ∀ (ticks : List TickInput) (s : LedStripState),
      (∀ inp ∈ ticks, period inp ≤ 2147483648) →
      List.Pairwise (· ≤ ·) (ticks.map TickInput.micros) →
      List.Chain' (fun a b : Nat × Nat => a.1 + a.2 ≤ b.1) (fireLog next period s ticks)
      ∧ st (runTicks s ticks)
          = toggleFlashState^[(fireLog next period s ticks).length] (st s)
      ∧ (∀ e, (fireLog next period s ticks).getLast? = some e →
          next (runTicks s ticks) = (e.1 + e.2) % 4294967296) := by
  intro ticks
  induction ticks with
  | nil =>
    intro s _ _
    refine ⟨List.chain'_nil, rfl, ?_⟩
    intro e he
    simp [fireLog] at he
  | cons inp rest ih =>
    intro s hper hsorted
    have hs := hstep s inp
    have hrun : runTicks s (inp :: rest) = runTicks (updateLedStrip s inp) rest := rfl
    cases hf : channelFires next s inp
    · have hlog : fireLog next period s (inp :: rest)
          = fireLog next period (updateLedStrip s inp) rest := by
        simp [fireLog, hf]
      obtain ⟨_, hst1⟩ := hs.2 hf
      rw [List.map_cons, List.pairwise_cons] at hsorted
      have h := ih (updateLedStrip s inp)
        (fun i hi => hper i (List.mem_cons_of_mem _ hi)) hsorted.2
      rw [hlog, hrun, ← hst1]
      exact h
    · have hlog : fireLog next period s (inp :: rest)
          = (inp.micros, period inp) :: fireLog next period (updateLedStrip s inp) rest := by
        simp [fireLog, hf]
      obtain ⟨hn1, hst1⟩ := hs.1 hf
      rw [List.map_cons, List.pairwise_cons] at hsorted
      have h := fireLog_after_fire next st period hstep rest (updateLedStrip s inp)
        inp.micros (period inp) (hper inp (List.mem_cons_self _ _)) hn1
        (fun i hi => ⟨hsorted.1 i.micros (List.mem_map_of_mem _ hi),
          hper i (List.mem_cons_of_mem _ hi)⟩) hsorted.2
      rw [hlog, hrun]
      refine ⟨h.1, ?_, ?_⟩
      · rw [h.2.1, hst1, List.length_cons, Function.iterate_succ_apply]
      · intro e he
        rw [h.2.2]
        rw [List.getLast?_eq_getLast _ (List.cons_ne_nil _ _), List.getLast_eq_getLastD] at he
        rw [Option.some.inj he]

theorem fireLog_mem (next : LedStripState → Nat) (period : TickInput → Nat) :
    ∀ (ticks : List TickInput) (s : LedStripState) (e : Nat × Nat),
      e ∈ fireLog next period s ticks → ∃ inp ∈ ticks, e = (inp.micros, period inp) := by
  intro ticks
  induction ticks with
  | nil =>
    intro s e he
    simp [fireLog] at he
  | cons inp rest ih =>
    intro s e he
    unfold fireLog at he
    split_ifs at he
    · rcases List.mem_cons.1 he with h | h
      · exact ⟨inp, List.mem_cons_self _ _, h⟩
      · obtain ⟨i, hi, hie⟩ := ih _ e h
        exact ⟨i, List.mem_cons_of_mem _ hi, hie⟩
    · obtain ⟨i, hi, hie⟩ := ih _ e he
      exact ⟨i, List.mem_cons_of_mem _ hi, hie⟩

theorem batteryPeriodOf_eq (inp : TickInput) : batteryPeriodOf inp = 100000 := by
  unfold batteryPeriodOf
  decide

theorem indicatorPeriodOf_bounds (inp : TickInput) :
    784 ≤ indicatorPeriodOf inp ∧ indicatorPeriodOf inp ≤ 200000 := by
  have h := indicatorPeriod_bounds inp.roll inp.pitch
  unfold indicatorPeriodOf
  omega

theorem battery_fire_step (s : LedStripState) (inp : TickInput) :
    (channelFires LedStripState.nextBatteryFlashAt s inp = true →
      (updateLedStrip s inp).nextBatteryFlashAt
          = (inp.micros + batteryPeriodOf inp) % 4294967296
      ∧ (updateLedStrip s inp).batteryFlashState = toggleFlashState s.batteryFlashState)
    ∧ (channelFires LedStripState.nextBatteryFlashAt s inp = false →
      (updateLedStrip s inp).nextBatteryFlashAt = s.nextBatteryFlashAt
      ∧ (updateLedStrip s inp).batteryFlashState = s.batteryFlashState) := by
  have h := battery_channel_step s inp
  unfold channelFires
  constructor
  · intro hf
    rw [Bool.and_eq_true] at hf
    rw [if_pos hf] at h
    rw [if_pos hf] at h
    refine ⟨?_, h.2⟩
    rw [h.1, batteryPeriodOf_eq]
    unfold toU32 LED_STRIP_10HZ
    omega
  · intro hf
    have hn : ¬ (inp.stripReady = true
        ∧ flashDue (toU32 inp.micros) s.nextBatteryFlashAt = true) := by
      rw [← Bool.and_eq_true, hf]
      decide
    rw [if_neg hn] at h
    rw [if_neg hn] at h
    exact h

theorem indicator_fire_step (s : LedStripState) (inp : TickInput) :
    (channelFires LedStripState.nextIndicatorFlashAt s inp = true →
      (updateLedStrip s inp).nextIndicatorFlashAt
          = (inp.micros + indicatorPeriodOf inp) % 4294967296
      ∧ (updateLedStrip s inp).indicatorFlashState = toggleFlashState s.indicatorFlashState)
    ∧ (channelFires LedStripState.nextIndicatorFlashAt s inp = false →
      (updateLedStrip s inp).nextIndicatorFlashAt = s.nextIndicatorFlashAt
      ∧ (updateLedStrip s inp).indicatorFlashState = s.indicatorFlashState) := by
  have h := indicator_channel_step s inp
  unfold channelFires
  constructor
  · intro hf
    rw [Bool.and_eq_true] at hf
    rw [if_pos hf] at h
    rw [if_pos hf] at h
    refine ⟨?_, h.2⟩
    have hb := indicatorPeriod_bounds inp.roll inp.pitch
    rw [h.1]
    unfold indicatorPeriodOf toU32
    omega
  · intro hf
    have hn : ¬ (inp.stripReady = true
        ∧ flashDue (toU32 inp.micros) s.nextIndicatorFlashAt = true) := by
      rw [← Bool.and_eq_true, hf]
      decide
    rw [if_neg hn] at h
    rw [if_neg hn] at h
    exact h

theorem toggleFlashState_twice (x : Nat) (hx : x ≤ 1) :
    toggleFlashState^[2] x = x := by
  have h : x = 0 ∨ x = 1 := by omega
  rcases h with h | h <;> subst h <;> rfl

theorem channelFires_in_window (next : LedStripState → Nat) (s : LedStripState)
    (inp : TickInput) (T : Nat) (hready : inp.stripReady = true)
    (hT : T ≤ inp.micros) (hwin : inp.micros < T + 2147483648)
    (hn : next s = T % 4294967296) :
    channelFires next s inp = true := by
  unfold channelFires
  rw [Bool.and_eq_true, flashDue_iff, hn]
  refine ⟨hready, ?_⟩
  unfold toU32
  omega

/-- C11: for each flash channel and every sequence of ticks whose true time
never decreases, each fire of the channel happens at least one period (the
period scheduled by the previous fire) after the previous fire of the same
channel, and the flash state after the run is the initial state toggled once
per fire. When the run holds exactly two fires of the channel, at times `t1`
and `t2`, a flash state of 0 or 1 is back at its initial value (0 returns to
0), and the channel's `nextFireAt` is `(t2 + period) mod 2^32` with
`t2 + period` at least the two periods later than `t1`: at least
`t1 + 200000` for the battery channel, whose period is always 100000. A
channel polled with the strip ready less than 2^31 microseconds after its
scheduled `nextFireAt` fires. -/
theorem flash_channel_successive_fires (s : LedStripState) (ticks : List TickInput)
    (hsorted : List.Pairwise (· ≤ ·) (ticks.map TickInput.micros)) :
    (List.Chain' (fun a b : Nat × Nat => a.1 + a.2 ≤ b.1)
        (fireLog LedStripState.nextBatteryFlashAt batteryPeriodOf s ticks)
      ∧ (∀ e ∈ fireLog LedStripState.nextBatteryFlashAt batteryPeriodOf s ticks, e.2 = 100000)
      ∧ (runTicks s ticks).batteryFlashState
          = toggleFlashState^[(fireLog LedStripState.nextBatteryFlashAt batteryPeriodOf
              s ticks).length] s.batteryFlashState
      ∧ (∀ t1 p1 t2 p2 : Nat,
          fireLog LedStripState.nextBatteryFlashAt batteryPeriodOf s ticks
            = [(t1, p1), (t2, p2)] →
          t1 + 100000 ≤ t2
          ∧ (s.batteryFlashState ≤ 1 →
              (runTicks s ticks).batteryFlashState = s.batteryFlashState)
          ∧ (runTicks s ticks).nextBatteryFlashAt = (t2 + 100000) % 4294967296
          ∧ t1 + 200000 ≤ t2 + 100000))
    ∧ (List.Chain' (fun a b : Nat × Nat => a.1 + a.2 ≤ b.1)
        (fireLog LedStripState.nextIndicatorFlashAt indicatorPeriodOf s ticks)
      ∧ (∀ e ∈ fireLog LedStripState.nextIndicatorFlashAt indicatorPeriodOf s ticks,
          784 ≤ e.2 ∧ e.2 ≤ 200000)
      ∧ (runTicks s ticks).indicatorFlashState
          = toggleFlashState^[(fireLog LedStripState.nextIndicatorFlashAt indicatorPeriodOf
              s ticks).length] s.indicatorFlashState
      ∧ (∀ t1 p1 t2 p2 : Nat,
          fireLog LedStripState.nextIndicatorFlashAt indicatorPeriodOf s ticks
            = [(t1, p1), (t2, p2)] →
          t1 + p1 ≤ t2
          ∧ (s.indicatorFlashState ≤ 1 →
              (runTicks s ticks).indicatorFlashState = s.indicatorFlashState)
          ∧ (runTicks s ticks).nextIndicatorFlashAt = (t2 + p2) % 4294967296
          ∧ t1 + p1 + p2 ≤ t2 + p2))
    ∧ (∀ (st : LedStripState) (inp : TickInput) (scheduled : Nat),
        inp.stripReady = true → scheduled ≤ inp.micros →
        inp.micros < scheduled + 2147483648 →
        (st.nextBatteryFlashAt = scheduled % 4294967296 →
          channelFires LedStripState.nextBatteryFlashAt st inp = true)
        ∧ (st.nextIndicatorFlashAt = scheduled % 4294967296 →
          channelFires LedStripState.nextIndicatorFlashAt st inp = true)) := by
  have hB := fireLog_run LedStripState.nextBatteryFlashAt LedStripState.batteryFlashState
    batteryPeriodOf battery_fire_step ticks s
    (fun inp _ => by rw [batteryPeriodOf_eq]; decide) hsorted
  have hI := fireLog_run LedStripState.nextIndicatorFlashAt LedStripState.indicatorFlashState
    indicatorPeriodOf indicator_fire_step ticks s
    (fun inp _ => by have h := indicatorPeriodOf_bounds inp; omega) hsorted
  have hBp : ∀ e ∈ fireLog LedStripState.nextBatteryFlashAt batteryPeriodOf s ticks,
      e.2 = 100000 := by
    intro e he
    obtain ⟨inp, _, hie⟩ := fireLog_mem _ _ ticks s e he
    rw [hie]
    exact batteryPeriodOf_eq inp
  have hIp : ∀ e ∈ fireLog LedStripState.nextIndicatorFlashAt indicatorPeriodOf s ticks,
      784 ≤ e.2 ∧ e.2 ≤ 200000 := by
    intro e he
    obtain ⟨inp, _, hie⟩ := fireLog_mem _ _ ticks s e he
    rw [hie]
    exact indicatorPeriodOf_bounds inp
  refine ⟨⟨hB.1, hBp, hB.2.1, ?_⟩, ⟨hI.1, hIp, hI.2.1, ?_⟩, ?_⟩
  · intro t1 p1 t2 p2 hlog
    have hchain := hB.1
    have hst := hB.2.1
    have hnext := hB.2.2 (t2, p2) (by rw [hlog]; rfl)
    have hp1 : p1 = 100000 := hBp (t1, p1) (by rw [hlog]; simp)
    have hp2 : p2 = 100000 := hBp (t2, p2) (by rw [hlog]; simp)
    rw [hlog] at hchain hst
    have hgap : t1 + p1 ≤ t2 := by
      simpa using hchain
    subst hp1 hp2
    refine ⟨hgap, ?_, hnext, by omega⟩
    intro h01
    rw [hst]
    exact toggleFlashState_twice _ h01
  · intro t1 p1 t2 p2 hlog
    have hchain := hI.1
    have hst := hI.2.1
    have hnext := hI.2.2 (t2, p2) (by rw [hlog]; rfl)
    rw [hlog] at hchain hst
    have hgap : t1 + p1 ≤ t2 := by
      simpa using hchain
    refine ⟨hgap, ?_, hnext, by omega⟩
    intro h01
    rw [hst]
    exact toggleFlashState_twice _ h01
  · intro st inp scheduled hready hle hwin
    exact ⟨channelFires_in_window _ st inp scheduled hready hle hwin,
      channelFires_in_window _ st inp scheduled hready hle hwin⟩

theorem flash_channel_successive_fires_witness :
    List.Pairwise (· ≤ ·)
      ((([⟨true, 1000, false, false, 0, 0⟩, ⟨true, 50000, false, false, 0, 0⟩,
          ⟨true, 101000, false, false, 0, 0⟩] : List TickInput)).map TickInput.micros)
    ∧ fireLog LedStripState.nextBatteryFlashAt batteryPeriodOf exampleState
        [⟨true, 1000, false, false, 0, 0⟩, ⟨true, 50000, false, false, 0, 0⟩,
          ⟨true, 101000, false, false, 0, 0⟩]
        = [(1000, 100000), (101000, 100000)]
    ∧ exampleState.batteryFlashState ≤ 1
    ∧ (1000 + 100000 ≤ 101000
      ∧ (exampleState.batteryFlashState ≤ 1 →
          (runTicks exampleState
            [⟨true, 1000, false, false, 0, 0⟩, ⟨true, 50000, false, false, 0, 0⟩,
              ⟨true, 101000, false, false, 0, 0⟩]).batteryFlashState
            = exampleState.batteryFlashState)
      ∧ (runTicks exampleState
            [⟨true, 1000, false, false, 0, 0⟩, ⟨true, 50000, false, false, 0, 0⟩,
              ⟨true, 101000, false, false, 0, 0⟩]).nextBatteryFlashAt
          = (101000 + 100000) % 4294967296
      ∧ 1000 + 200000 ≤ 101000 + 100000) :=
  ⟨by decide, by decide, by decide,
    (flash_channel_successive_fires exampleState
      [⟨true, 1000, false, false, 0, 0⟩, ⟨true, 50000, false, false, 0, 0⟩,
        ⟨true, 101000, false, false, 0, 0⟩] (by decide)).1.2.2.2
      1000 100000 101000 100000 (by decide)⟩

end LedStrip
